import Mathlib

/-
  Verification development for the cosmicdiary chart-derivation and
  correlation-scoring engine.

  The Python sources are shallowly embedded:
  * floats are modelled as exact rationals (ℚ); Python `%` on a positive
    modulus is the floor-based remainder, modelled by `qmod360`;
  * Python ints are ℤ (or ℕ for house indices returned by the scanner);
    Python `%` on ints with positive modulus coincides with `Int.emod`;
  * a `raise ValueError(msg)` is modelled as `Except.error msg`;
  * a Python dict used as a record is a structure; optional keys are
    `Option` fields.  A planet entry that is absent and one that is present
    but empty behave identically in every code path modelled here (both are
    skipped), so both are modelled as a missing entry in the association
    list.  Dict iteration order is the list order; `set` intersection is
    modelled as an order-preserving deduplicated filter (no modelled
    property depends on element order).
-/

set_option maxHeartbeats 2000000
set_option maxRecDepth 8000

namespace Cosmic

/-- Floor-based remainder by 360, the meaning of Python `x % 360` on reals. -/
def qmod360 (x : ℚ) : ℚ := x - 360 * ((⌊x / 360⌋ : ℤ) : ℚ)

/-- Python `round(x, 4)` at the values reached here (x*10000 is never a
half-integer in this development, so round-half-to-even and floor(x+1/2)
agree). -/
def roundq4 (x : ℚ) : ℚ := ((⌊x * 10000 + 1/2⌋ : ℤ) : ℚ) / 10000

/-! ### aspect_calculator.py -/

/-- `ASPECT_RULES` from aspect_calculator.py. -/
def ASPECT_RULES : List (String × List ℤ) :=
  [("Jupiter", [5, 7, 9]), ("Saturn", [3, 7, 10]), ("Mars", [4, 7, 8]),
   ("Rahu", [3, 7, 11]), ("Ketu", [3, 7, 11]), ("Sun", [7]), ("Moon", [7]),
   ("Mercury", [7]), ("Venus", [7])]

/-- `calculate_target_house` from aspect_calculator.py. -/
def calculate_target_house (from_house offset : ℤ) : Except String ℤ :=
  if ¬(1 ≤ from_house ∧ from_house ≤ 12) then
    .error ("from_house must be between 1 and 12, got " ++ toString from_house)
  else if ¬(1 ≤ offset ∧ offset ≤ 11) then
    .error ("offset must be between 1 and 11, got " ++ toString offset)
  else
    let target : ℤ := (from_house + offset - 1) % 12
    .ok (if target = 0 then 12 else target)

/-- The value `calculate_target_house` returns on validated inputs:
`(from_house + offset − 1) mod 12`, with 0 mapped to 12. -/
def target_house_val (from_house offset : ℤ) : ℤ :=
  if (from_house + offset - 1) % 12 = 0 then 12 else (from_house + offset - 1) % 12

/-- The planet names of the `ASPECT_RULES` table, in table order. -/
def rule_planets : List String :=
  ["Jupiter", "Saturn", "Mars", "Rahu", "Ketu", "Sun", "Moon", "Mercury", "Venus"]

/-- The `ordinal_map` literal inside `get_aspect_type_name`. -/
def ordinal_map : List (ℤ × String) :=
  [(3, "3rd"), (4, "4th"), (5, "5th"), (6, "6th"), (7, "7th"),
   (8, "8th"), (9, "9th"), (10, "10th"), (11, "11th")]

/-- `get_aspect_type_name` from aspect_calculator.py (the planet name is
accepted and ignored, as in the source). -/
def get_aspect_type_name (planet_name : String) (offset : ℤ) : String :=
  if offset = 7 then "drishti_7th"
  else match ordinal_map.lookup offset with
    | some suf => "drishti_" ++ suf
    | none => "drishti_" ++ toString offset ++ "th"

/-- The fields of a per-planet position dict that the aspect calculator and
the correlation analyzer read.  `rasi` is the name held under the `rasi`
key ('Unknown'/absent collapses to `none`); `strength` is the combined
`strength`/`strength_score` lookup. -/
structure PlanetData where
  longitude : ℚ
  house : Option ℤ
  rasi : Option String
  is_retrograde : Bool
  strength : Option ℚ
deriving DecidableEq

/-- One aspect record produced by `calculate_all_aspects`. -/
structure Aspect where
  planet : String
  from_house : ℤ
  to_house : ℤ
  aspect_type : String
  planet_rasi : String
  planet_longitude : ℚ
  is_retrograde : Bool
  planet_strength : Option ℚ
deriving DecidableEq

/-- The aspect dict literal built in the inner loop of `calculate_all_aspects`. -/
def mk_aspect (planet_name : String) (d : PlanetData) (planet_house to_house offset : ℤ) : Aspect :=
  { planet := planet_name, from_house := planet_house, to_house := to_house,
    aspect_type := get_aspect_type_name planet_name offset,
    planet_rasi := d.rasi.getD "Unknown",
    planet_longitude := d.longitude,
    is_retrograde := d.is_retrograde,
    planet_strength := d.strength }

/-- The inner `for offset in aspect_offsets` loop of `calculate_all_aspects`. -/
def aspects_for (planet_name : String) (d : PlanetData) (planet_house : ℤ) :
    List ℤ → Except String (List Aspect)
  | [] => .ok []
  | offset :: rest => do
      let t ← calculate_target_house planet_house offset
      let more ← aspects_for planet_name d planet_house rest
      .ok (mk_aspect planet_name d planet_house t offset :: more)

/-- One planet's contribution in the outer loop of `calculate_all_aspects`:
unknown planets and planets without a house are skipped, an out-of-range
house raises. -/
def planet_aspects (planet_name : String) (d : PlanetData) : Except String (List Aspect) :=
  match ASPECT_RULES.lookup planet_name with
  | none => .ok []
  | some offsets =>
    match d.house with
    | none => .ok []
    | some h =>
      if ¬(1 ≤ h ∧ h ≤ 12) then
        .error ("Planet " ++ planet_name ++ " has invalid house number: " ++ toString h ++
          ". House must be between 1 and 12.")
      else aspects_for planet_name d h offsets

/-- `calculate_all_aspects` from aspect_calculator.py (the unused
`house_cusps` parameter of the source is omitted). -/
def calculate_all_aspects : List (String × PlanetData) → Except String (List Aspect)
  | [] => .ok []
  | (n, d) :: rest => do
      let a ← planet_aspects n d
      let r ← calculate_all_aspects rest
      .ok (a ++ r)

/-! ### astro_calculations.py -/

/-- The body of the `for i in range(12)` interval test in `get_house_number`. -/
def house_arc_test (planet_long : ℚ) (house_cusps : List ℚ) (i : ℕ) : Bool :=
  let current_cusp := qmod360 (house_cusps.getD i 0)
  let next_cusp := qmod360 (house_cusps.getD ((i + 1) % 12) 0)
  if next_cusp < current_cusp then
    if planet_long ≥ current_cusp ∨ planet_long < next_cusp then true else false
  else
    if current_cusp ≤ planet_long ∧ planet_long < next_cusp then true else false

/-- The `for i in range(12)` loop of `get_house_number`, returning the first
matching house, defaulting to house 1. -/
def house_scan (planet_long : ℚ) (house_cusps : List ℚ) : List ℕ → ℕ
  | [] => 1
  | i :: rest =>
    if house_arc_test planet_long house_cusps i then i + 1
    else house_scan planet_long house_cusps rest

/-- `get_house_number` from astro_calculations.py. -/
def get_house_number (planet_longitude : ℚ) (house_cusps : List ℚ) : Except String ℕ :=
  if house_cusps.length ≠ 12 then .error "house_cusps must contain exactly 12 values"
  else .ok (house_scan (qmod360 planet_longitude) house_cusps (List.range 12))

/-- `EXALTATION` table from astro_calculations.py. -/
def EXALTATION : List (String × ℚ) :=
  [("Sun", 10), ("Moon", 3), ("Mercury", 15), ("Venus", 27), ("Mars", 28),
   ("Jupiter", 5), ("Saturn", 20)]

/-- `DEBILITATION` table from astro_calculations.py. -/
def DEBILITATION : List (String × ℚ) :=
  [("Sun", 190), ("Moon", 213), ("Mercury", 195), ("Venus", 207), ("Mars", 208),
   ("Jupiter", 185), ("Saturn", 200)]

/-- `OWN_SIGNS` table from astro_calculations.py. -/
def OWN_SIGNS : List (String × List String) :=
  [("Sun", ["Leo"]), ("Moon", ["Cancer"]), ("Mercury", ["Gemini", "Virgo"]),
   ("Venus", ["Taurus", "Libra"]), ("Mars", ["Aries", "Scorpio"]),
   ("Jupiter", ["Sagittarius", "Pisces"]), ("Saturn", ["Capricorn", "Aquarius"]),
   ("Rahu", []), ("Ketu", [])]

/-- `dig_bala_rules` literal inside `calculate_planetary_strengths`. -/
def dig_bala_rules : List (String × List ℤ) :=
  [("Sun", [10]), ("Moon", [4]), ("Mars", [10]), ("Mercury", [1]),
   ("Jupiter", [1]), ("Venus", [4]), ("Saturn", [7]), ("Rahu", []), ("Ketu", [])]

/-- The fields of a planetary-position dict read by
`calculate_planetary_strengths` (`name`, `longitude`, `rasi.name`, and the
optional `house` read with default 0). -/
structure PlanetPos where
  name : String
  longitude : ℚ
  rasi_name : String
  house : Option ℤ
deriving DecidableEq

/-- The circular-distance computation used by the exaltation, debilitation
and combustion checks: absolute difference of the two normalized
longitudes, folded above 180°. -/
def circ_diff (a b : ℚ) : ℚ :=
  let d := |qmod360 a - qmod360 b|
  if d > 180 then 360 - d else d

/-- The `is_exalted` computation of `calculate_planetary_strengths`. -/
def exalted_flag (p : PlanetPos) : Bool :=
  match EXALTATION.lookup p.name with
  | none => false
  | some e => if circ_diff p.longitude e ≤ 5 then true else false

/-- The `is_debilitated` computation of `calculate_planetary_strengths`. -/
def debilitated_flag (p : PlanetPos) : Bool :=
  match DEBILITATION.lookup p.name with
  | none => false
  | some e => if circ_diff p.longitude e ≤ 5 then true else false

/-- The `is_own_sign` computation of `calculate_planetary_strengths`. -/
def own_sign_flag (p : PlanetPos) : Bool :=
  ((OWN_SIGNS.lookup p.name).getD []).contains p.rasi_name

/-- The `dig_bala` computation of `calculate_planetary_strengths`. -/
def dig_bala_flag (p : PlanetPos) : Bool :=
  match dig_bala_rules.lookup p.name with
  | none => false
  | some hs => hs.contains (p.house.getD 0)

/-- The `is_combusted` computation of `calculate_planetary_strengths`:
skipped for Sun/Rahu/Ketu and when no Sun entry exists; orb 7° for
Mercury/Venus, 8.5° otherwise. -/
def combusted_flag (planets : List PlanetPos) (p : PlanetPos) : Bool :=
  if p.name = "Sun" ∨ p.name = "Rahu" ∨ p.name = "Ketu" then false
  else match planets.find? (fun q => q.name == "Sun") with
    | none => false
    | some sun =>
      let orb : ℚ := if p.name = "Mercury" ∨ p.name = "Venus" then 7 else 17/2
      if circ_diff p.longitude sun.longitude < orb then true else false

/-- The additive-then-clamp score of `calculate_planetary_strengths`:
base 0.5; +0.3 exalted else −0.3 debilitated; +0.2 own sign; +0.15 dig
bala; −0.2 combusted; clamped to [0,1]. -/
def score_calc (is_exalted is_debilitated is_own_sign dig_bala is_combusted : Bool) : ℚ :=
  let s0 : ℚ := 1/2
  let s1 := if is_exalted then s0 + 3/10 else if is_debilitated then s0 - 3/10 else s0
  let s2 := if is_own_sign then s1 + 1/5 else s1
  let s3 := if dig_bala then s2 + 3/20 else s2
  let s4 := if is_combusted then s3 - 1/5 else s3
  max 0 (min 1 s4)

/-- One strength record, as stored under `strengths[planet_name]`. -/
structure PlanetStrength where
  exalted : Bool
  debilitated : Bool
  own_sign : Bool
  dig_bala : Bool
  combusted : Bool
  strength_score : ℚ
deriving DecidableEq

/-- The per-planet body of the loop in `calculate_planetary_strengths`. -/
def strength_entry (planets : List PlanetPos) (p : PlanetPos) : PlanetStrength :=
  { exalted := exalted_flag p,
    debilitated := debilitated_flag p,
    own_sign := own_sign_flag p,
    dig_bala := dig_bala_flag p,
    combusted := combusted_flag planets p,
    strength_score := roundq4 (score_calc (exalted_flag p) (debilitated_flag p)
      (own_sign_flag p) (dig_bala_flag p) (combusted_flag planets p)) }

/-- `calculate_planetary_strengths` from astro_calculations.py.  The
returned dict is modelled as the association list of its insertions (the
`asc_rasi` argument is accepted and unused, as in the source). -/
def calculate_planetary_strengths (planets : List PlanetPos) (asc_rasi : String) :
    List (String × PlanetStrength) :=
  planets.map (fun p => (p.name, strength_entry planets p))

/-! ### api_server.py -/

/-- The single-pass wrap correction of `is_retrograde` in api_server.py:
subtract 360 when the raw difference exceeds +180, add 360 when it is below
−180, otherwise keep it. -/
def code_norm_diff (diff : ℚ) : ℚ :=
  if diff > 180 then diff - 360 else if diff < -180 then diff + 360 else diff

/-- `is_retrograde` from api_server.py.  The Swiss-Ephemeris call
`swe.calc_ut(jd, planet_num, sidereal flags)[0][0]` is abstracted as the
oracle `calc_ut : jd → planet_num → sidereal longitude` (the ephemeris
raises rather than returning a falsy tuple, so the `if not result` guards
of the source are dead code).  Swiss constants: SUN = 0, MOON = 1. -/
def is_retrograde (calc_ut : ℚ → ℤ → ℚ) (planet_num : ℤ) (planet_name : String) (jd : ℚ) : Bool :=
  if planet_name = "Rahu" ∨ planet_name = "Ketu" then true
  else if planet_num = 0 ∨ planet_num = 1 then false
  else
    let long1 := calc_ut jd planet_num
    let long2 := calc_ut (jd + 1/4) planet_num
    let diff := code_norm_diff (long2 - long1)
    let speed_per_day := diff / (1/4)
    if speed_per_day < 0 then true else false

/-- Modelled from the spec: the normalization of a signed angular
difference "into (-180°, 180°]" named by §4.2 of the spec (the unique
representative of d mod 360 in that half-open interval). -/
def spec_norm_diff (d : ℚ) : ℚ := d - 360 * ((⌈(d - 180) / 360⌉ : ℤ) : ℚ)

/-! ### correlation_analyzer.py -/

/-- The chart-dict keys read by `correlate_event_with_snapshot`: the event
ascendant keys (`ascendant_rasi`/`ascendant_degree`), the snapshot lagna
keys (`lagna_rasi`/`lagna_degree`), the planetary positions and the (unused
in aspect matching) house cusps.  Absent keys are `none`; the degree keys
are read with default 0. -/
structure ChartDict where
  ascendant_rasi : Option String
  lagna_rasi : Option String
  ascendant_degree : ℚ
  lagna_degree : ℚ
  planetary_positions : List (String × PlanetData)
  house_cusps : List ℚ
deriving DecidableEq

/-- One matching-factor dict appended to `correlations`.  Each constructor
is one of the five dict literals of `correlate_event_with_snapshot` (the
`type` key is the constructor, the `score` key is `Factor.score`, the
`details.planet` key is the planet argument). -/
inductive Factor where
  | lagna_match (lagna_rasi : String) (event_lagna_degree snapshot_lagna_degree : ℚ)
  | retrograde_match (planet : String)
  | planetary_house_match (planet : String) (house : ℤ)
  | aspect_match (planet : String) (aspect_type : String) (target_house : ℤ)
  | planetary_rasi_match (planet : String) (rasi : String)
deriving DecidableEq

/-- The `score` key of each factor dict literal. -/
def Factor.score : Factor → ℚ
  | .lagna_match _ _ _ => 3/10
  | .retrograde_match _ => 1/10
  | .planetary_house_match _ _ => 1/20
  | .aspect_match _ _ _ => 3/20
  | .planetary_rasi_match _ _ => 1/20

/-- `get_retrograde_planets` from correlation_analyzer.py. -/
def get_retrograde_planets (chart_data : ChartDict) : List String :=
  (chart_data.planetary_positions.filter (fun pd => pd.2.is_retrograde)).map Prod.fst

/-- `get_planet_house` from correlation_analyzer.py. -/
def get_planet_house (planet_data : PlanetData) : Option ℤ :=
  match planet_data.house with
  | some h => if 1 ≤ h ∧ h ≤ 12 then some h else none
  | none => none

/-- `get_planet_rasi` from correlation_analyzer.py. -/
def get_planet_rasi (planet_data : PlanetData) : Option String := planet_data.rasi

/-- `calculate_correlation_score` from correlation_analyzer.py. -/
def calculate_correlation_score (correlations : List Factor) : ℚ :=
  min ((correlations.map Factor.score).sum) 1

/-- `categorize_correlation_strength` from correlation_analyzer.py. -/
def categorize_correlation_strength (score : ℚ) : String :=
  if score ≥ 7/10 then "Very High"
  else if score ≥ 1/2 then "High"
  else if score ≥ 3/10 then "Medium"
  else "Low"

/-- Python truthiness of an optional string (None and "" are falsy). -/
def str_truthy : Option String → Bool
  | none => false
  | some s => s != ""

/-- Python `set(a) & set(b)`, modelled order-preservingly. -/
def py_set_inter (a b : List String) : List String :=
  (a.filter (fun x => b.contains x)).dedup

/-- Phase (a) of `correlate_event_with_snapshot`: the lagna match, reading
`ascendant_rasi` from the event chart but `lagna_rasi` from the snapshot
chart. -/
def lagna_factors (event_chart snapshot_chart : ChartDict) : List Factor :=
  if str_truthy event_chart.ascendant_rasi && str_truthy snapshot_chart.lagna_rasi then
    if event_chart.ascendant_rasi == snapshot_chart.lagna_rasi then
      [Factor.lagna_match (event_chart.ascendant_rasi.getD "")
        event_chart.ascendant_degree snapshot_chart.lagna_degree]
    else []
  else []

/-- Phase (b) of `correlate_event_with_snapshot`: one 0.1 factor per planet
retrograde in both charts. -/
def retro_factors (event_chart snapshot_chart : ChartDict) : List Factor :=
  (py_set_inter (get_retrograde_planets event_chart)
    (get_retrograde_planets snapshot_chart)).map Factor.retrograde_match

/-- The fixed `planet_names` list of `correlate_event_with_snapshot`. -/
def planet_names : List String :=
  ["Sun", "Moon", "Mars", "Mercury", "Jupiter", "Venus", "Saturn", "Rahu", "Ketu"]

/-- Phase (c) body: the house match test for one planet name (presence of
both entries, both houses valid per `get_planet_house`, truthy, and equal). -/
def house_factor_for (event_chart snapshot_chart : ChartDict) (planet_name : String) :
    Option Factor :=
  match event_chart.planetary_positions.lookup planet_name,
        snapshot_chart.planetary_positions.lookup planet_name with
  | some ep, some sp =>
    match get_planet_house ep, get_planet_house sp with
    | some eh, some sh =>
      if eh != 0 && sh != 0 && eh == sh then
        some (Factor.planetary_house_match planet_name eh)
      else none
    | _, _ => none
  | _, _ => none

/-- Phase (c) of `correlate_event_with_snapshot`: house matches in
`planet_names` order. -/
def house_factors (event_chart snapshot_chart : ChartDict) : List Factor :=
  planet_names.filterMap (house_factor_for event_chart snapshot_chart)

/-- Python tuple equality on `(planet, to_house, aspect_type)` match keys. -/
def aspect_key_beq (k k' : String × ℤ × String) : Bool :=
  k.1 == k'.1 && k.2.1 == k'.2.1 && k.2.2 == k'.2.2

/-- `match_key not in aspect_matches` membership test. -/
def key_mem (keys : List (String × ℤ × String)) (k : String × ℤ × String) : Bool :=
  keys.any (fun k' => aspect_key_beq k k')

/-- The `(planet, to_house, aspect_type)` match key of an aspect. -/
def aspect_match_key (a : Aspect) : String × ℤ × String := (a.planet, a.to_house, a.aspect_type)

/-- The matching condition of phase (d): same planet, same target house,
same aspect type (tested in that order). -/
def aspect_match_cond (a b : Aspect) : Bool :=
  a.planet == b.planet && a.to_house == b.to_house && a.aspect_type == b.aspect_type

/-- The body of the inner snapshot-aspect loop of phase (d). -/
def aspect_step (a : Aspect) (st : List (String × ℤ × String) × List Factor) (b : Aspect) :
    List (String × ℤ × String) × List Factor :=
  if aspect_match_cond a b && !(key_mem st.1 (aspect_match_key a)) then
    (aspect_match_key a :: st.1,
     st.2 ++ [Factor.aspect_match a.planet a.aspect_type a.to_house])
  else st

/-- Phase (d) of `correlate_event_with_snapshot`: the nested loop over both
aspect lists, deduplicated by match key; if either aspect computation
raises, the whole phase is skipped (the `try`/`except`). -/
def aspect_factors (event_chart snapshot_chart : ChartDict) : List Factor :=
  match calculate_all_aspects event_chart.planetary_positions,
        calculate_all_aspects snapshot_chart.planetary_positions with
  | .ok event_aspects, .ok snapshot_aspects =>
    (event_aspects.foldl (fun st a => snapshot_aspects.foldl (aspect_step a) st)
      (([], []) : List (String × ℤ × String) × List Factor)).2
  | _, _ => []

/-- The `house_match_exists` scan of phase (e): a factor of type
`planetary_house_match` whose `details.planet` is the given name. -/
def is_house_match_for (planet_name : String) : Factor → Bool
  | .planetary_house_match p _ => p == planet_name
  | _ => false

/-- Phase (e) body: the rasi match test for one planet name against the
correlations accumulated so far. -/
def rasi_factor_for (event_chart snapshot_chart : ChartDict) (acc : List Factor)
    (planet_name : String) : Option Factor :=
  match event_chart.planetary_positions.lookup planet_name,
        snapshot_chart.planetary_positions.lookup planet_name with
  | some ep, some sp =>
    match get_planet_rasi ep, get_planet_rasi sp with
    | some er, some sr =>
      if er != "" && sr != "" && er == sr then
        if acc.any (is_house_match_for planet_name) then none
        else some (Factor.planetary_rasi_match planet_name er)
      else none
    | _, _ => none
  | _, _ => none

/-- Phase (e) of `correlate_event_with_snapshot`: the rasi-match loop,
appending to the running correlations list. -/
def rasi_fold (event_chart snapshot_chart : ChartDict) :
    List String → List Factor → List Factor
  | [], acc => acc
  | n :: rest, acc =>
    rasi_fold event_chart snapshot_chart rest
      (acc ++ (rasi_factor_for event_chart snapshot_chart acc n).toList)

/-- The result dict of `correlate_event_with_snapshot`. -/
structure CorrelationResult where
  snapshot_id : ℤ
  correlations : List Factor
  correlation_score : ℚ
  total_matches : ℕ
  strength : String
deriving DecidableEq

/-- `correlate_event_with_snapshot` from correlation_analyzer.py. -/
def correlate_event_with_snapshot (event_chart snapshot_chart : ChartDict)
    (snapshot_id : ℤ) : CorrelationResult :=
  let corr0 := lagna_factors event_chart snapshot_chart
    ++ retro_factors event_chart snapshot_chart
    ++ house_factors event_chart snapshot_chart
    ++ aspect_factors event_chart snapshot_chart
  let correlations := rasi_fold event_chart snapshot_chart planet_names corr0
  let correlation_score := calculate_correlation_score correlations
  { snapshot_id := snapshot_id, correlations := correlations,
    correlation_score := correlation_score,
    total_matches := correlations.length,
    strength := categorize_correlation_strength correlation_score }

/-! ### Definitions used to state the claims -/

/-- Factor classifier: lagna match. -/
def is_lagna_factor : Factor → Bool
  | .lagna_match _ _ _ => true
  | _ => false

/-- Factor classifier: retrograde match. -/
def is_retro_factor : Factor → Bool
  | .retrograde_match _ => true
  | _ => false

/-- Factor classifier: house match. -/
def is_house_factor : Factor → Bool
  | .planetary_house_match _ _ => true
  | _ => false

/-- Factor classifier: aspect match. -/
def is_aspect_factor : Factor → Bool
  | .aspect_match _ _ _ => true
  | _ => false

/-- Factor classifier: rasi match for a given planet. -/
def is_rasi_match_for (planet_name : String) : Factor → Bool
  | .planetary_rasi_match p _ => p == planet_name
  | _ => false

/-- The rasi-agreement condition of phase (e), detached from the
double-count check: both charts list the planet, both rasi names are
present, truthy and equal. -/
def rasi_cond (event_chart snapshot_chart : ChartDict) (planet_name : String) : Bool :=
  match event_chart.planetary_positions.lookup planet_name,
        snapshot_chart.planetary_positions.lookup planet_name with
  | some ep, some sp =>
    match get_planet_rasi ep, get_planet_rasi sp with
    | some er, some sr => er != "" && sr != "" && er == sr
    | _, _ => false
  | _, _ => false

/-- The planet iteration order of `calculate_planetary_positions` /
`calculate_complete_chart` (the `PLANETS` dict order). -/
def PLANETS_order : List String :=
  ["Sun", "Moon", "Mercury", "Venus", "Mars", "Jupiter", "Saturn", "Rahu", "Ketu"]

/-- A chart in the Chart Assembler's (`calculate_complete_chart`) output
format: it carries `ascendant_rasi` (and no `lagna_rasi` key), and one
positions entry per planet of `PLANETS_order`. -/
def assembler_chart (asc_rasi : String) (asc_degree : ℚ) (cusps : List ℚ)
    (pos : String → PlanetData) : ChartDict :=
  { ascendant_rasi := some asc_rasi, lagna_rasi := none,
    ascendant_degree := asc_degree, lagna_degree := 0,
    planetary_positions := PLANETS_order.map (fun n => (n, pos n)),
    house_cusps := cusps }

/-- Modelled from the spec: membership of a (pre-normalized) longitude in
the claimed half-open house arc `[cusps[k-1], cusps[k mod 12])` of house k,
with the claimed wraparound test `longitude >= cusps[k-1] OR longitude <
cusps[k mod 12]` when the next cusp is numerically smaller. -/
def spec_house_arc (lon : ℚ) (cusps : List ℚ) (k : ℕ) : Bool :=
  let c := qmod360 (cusps.getD (k - 1) 0)
  let n := qmod360 (cusps.getD (k % 12) 0)
  if n < c then
    if lon ≥ c ∨ lon < n then true else false
  else
    if c ≤ lon ∧ lon < n then true else false

/-! ### Concrete inputs for witnesses and counterexamples -/

/-- The `(planet, aspect_type)` projection of an aspect record; within one
chart it determines the record (a planet has one house, an offset one
type). -/
def aspect_proj (a : Aspect) : String × String := (a.planet, a.aspect_type)

/-- The block of aspect records one planet contributes on the happy path. -/
def planet_block (pos : String → PlanetData) (house : String → ℤ) (n : String) : List Aspect :=
  ((ASPECT_RULES.lookup n).getD []).map
    (fun o => mk_aspect n (pos n) (house n) (target_house_val (house n) o) o)

/-- `correlate_event_with_snapshot` applied to one Chart-Assembler-format
chart as both the event chart and the snapshot chart. -/
def assembler_self_correlation (asc_rasi : String) (asc_degree : ℚ) (cusps : List ℚ)
    (pos : String → PlanetData) (snapshot_id : ℤ) : CorrelationResult :=
  correlate_event_with_snapshot (assembler_chart asc_rasi asc_degree cusps pos)
    (assembler_chart asc_rasi asc_degree cusps pos) snapshot_id

/-- The even 30°-cusp list `[0, 30, ..., 330]` of the house boundary scenario. -/
def cusps_0_30 : List ℚ :=
  [0, 30, 60, 90, 120, 150, 180, 210, 240, 270, 300, 330]

/-- A 12-entry cusp list with overlapping arcs (arc 1 is [0,100) while arc 3
is [50,60)). -/
def cusps_overlap : List ℚ :=
  [0, 100, 50, 60, 70, 80, 90, 110, 120, 130, 140, 150]

/-- Sample positions function: every planet in house 1, Aries, with the
nodes retrograde. -/
def sample_pos : String → PlanetData := fun n =>
  { longitude := 10, house := some 1, rasi := some "Aries",
    is_retrograde := n == "Rahu" || n == "Ketu", strength := none }

/-- Constant house function used by witnesses. -/
def sample_house : String → ℤ := fun _ => 1

/-- A concrete Chart-Assembler-format chart. -/
def sample_chart : ChartDict := assembler_chart "Aries" 10 cusps_0_30 sample_pos

/-- Positions list where Mars has a rasi but no house. -/
def c8_positions : List (String × PlanetData) :=
  [("Mars", { longitude := 15, house := none, rasi := some "Aries",
              is_retrograde := false, strength := none })]

/-- Event chart for the C8 witness. -/
def c8_event : ChartDict :=
  { ascendant_rasi := some "Scorpio", lagna_rasi := none, ascendant_degree := 0,
    lagna_degree := 0, planetary_positions := c8_positions, house_cusps := [] }

/-- Snapshot chart for the C8 witness. -/
def c8_snapshot : ChartDict :=
  { ascendant_rasi := none, lagna_rasi := some "Scorpio", ascendant_degree := 0,
    lagna_degree := 0, planetary_positions := c8_positions, house_cusps := [] }

/-- Sun at 30° (used for the combustion counterexample). -/
def c4_sun : PlanetPos := { name := "Sun", longitude := 30, rasi_name := "Taurus", house := some 4 }

/-- Venus at 31° Taurus in house 4: simultaneously exalted (|31−27| ≤ 5),
own-sign and dig-bala — and combusted when the Sun stands at 30°. -/
def c4_venus : PlanetPos := { name := "Venus", longitude := 31, rasi_name := "Taurus", house := some 4 }

/-- Chart with Venus both dignified and combusted. -/
def c4_planets : List PlanetPos := [c4_sun, c4_venus]

/-- The strength record computed for the combusted dignified Venus. -/
def c4_venus_strength : PlanetStrength := strength_entry c4_planets c4_venus

/-- Sun far away at 200° (no combustion). -/
def c4b_sun : PlanetPos := { name := "Sun", longitude := 200, rasi_name := "Libra", house := some 10 }

/-- Chart with Venus dignified and not combusted. -/
def c4b_planets : List PlanetPos := [c4b_sun, c4_venus]

/-- Oracle whose sampled longitudes are 180° at jd 0 and 0° at jd 1/4 — a
raw difference of exactly −180°. -/
def c6_oracle : ℚ → ℤ → ℚ := fun t _ => if t = 0 then 180 else 0

/-- Constant ephemeris oracle. -/
def c6_const_oracle : ℚ → ℤ → ℚ := fun _ _ => 10

/-- A nine-planet positions map with every planet in house 5. -/
def c7_planets : List (String × PlanetData) :=
  [("Jupiter", { longitude := 0, house := some 5, rasi := some "Leo", is_retrograde := false, strength := none }),
   ("Saturn", { longitude := 0, house := some 5, rasi := some "Leo", is_retrograde := false, strength := none }),
   ("Mars", { longitude := 0, house := some 5, rasi := some "Leo", is_retrograde := false, strength := none }),
   ("Rahu", { longitude := 0, house := some 5, rasi := some "Leo", is_retrograde := true, strength := none }),
   ("Ketu", { longitude := 0, house := some 5, rasi := some "Leo", is_retrograde := true, strength := none }),
   ("Sun", { longitude := 0, house := some 5, rasi := some "Leo", is_retrograde := false, strength := none }),
   ("Moon", { longitude := 0, house := some 5, rasi := some "Leo", is_retrograde := false, strength := none }),
   ("Mercury", { longitude := 0, house := some 5, rasi := some "Leo", is_retrograde := false, strength := none }),
   ("Venus", { longitude := 0, house := some 5, rasi := some "Leo", is_retrograde := false, strength := none })]

/-- A chart dict with no keys set. -/
def empty_chart : ChartDict :=
  { ascendant_rasi := none, lagna_rasi := none, ascendant_degree := 0, lagna_degree := 0,
    planetary_positions := [], house_cusps := [] }

/-- A Rahu/Ketu strength list for the C10 witness. -/
def c10_planets : List PlanetPos :=
  [{ name := "Rahu", longitude := 123, rasi_name := "Leo", house := some 10 },
   { name := "Ketu", longitude := 303, rasi_name := "Aquarius", house := some 4 },
   c4_sun]

/-! ## Helper lemmas -/

theorem ite_bool_eq_true (p : Prop) [Decidable p] : ((if p then true else false) = true) ↔ p := by
  split_ifs with h <;> simp [h]

theorem qmod360_of_bounds (x : ℚ) (h1 : 0 ≤ x) (h2 : x < 360) : qmod360 x = x := by
  unfold qmod360
  have hf : ⌊x / 360⌋ = 0 := by
    rw [Int.floor_eq_iff]
    refine ⟨by positivity, ?_⟩
    rw [div_lt_iff (by norm_num)]
    push_cast
    linarith
  rw [hf]
  push_cast
  ring

theorem circ_diff_of_bounds (a b : ℚ) (ha1 : 0 ≤ a) (ha2 : a < 360) (hb1 : 0 ≤ b)
    (hb2 : b < 360) : circ_diff a b = if |a - b| > 180 then 360 - |a - b| else |a - b| := by
  unfold circ_diff
  rw [qmod360_of_bounds a ha1 ha2, qmod360_of_bounds b hb1 hb2]

theorem roundq4_int_div20 (k : ℤ) : roundq4 ((k : ℚ) / 20) = (k : ℚ) / 20 := by
  unfold roundq4
  have h1 : (k : ℚ) / 20 * 10000 + 1/2 = ((500 * k : ℤ) : ℚ) + 1/2 := by push_cast; ring
  have h2 : ⌊(1/2 : ℚ)⌋ = 0 := by norm_num
  rw [h1, Int.floor_int_add, h2]
  push_cast
  ring

theorem roundq4_score (e d o g c : Bool) :
    roundq4 (score_calc e d o g c) = score_calc e d o g c := by
  have key : score_calc e d o g c
      = ((max 0 (min 20 (10 + (if e then 6 else if d then -6 else 0) + (if o then 4 else 0)
          + (if g then 3 else 0) + (if c then -4 else 0))) : ℤ) : ℚ) / 20 := by
    unfold score_calc
    cases e <;> cases d <;> cases o <;> cases g <;> cases c <;> norm_num [min_def, max_def]
  rw [key, roundq4_int_div20]

theorem score_formula (e d o g c : Bool) :
    roundq4 (score_calc e d o g c)
      = max 0 (min 1 (1/2 + (if e then 3/10 else if d then -(3/10) else 0)
          + (if o then 1/5 else 0) + (if g then 3/20 else 0) + (if c then -(1/5) else 0))) := by
  rw [roundq4_score]
  unfold score_calc
  cases e <;> cases d <;> cases o <;> cases g <;> cases c <;> norm_num

theorem code_norm_eq_spec (d : ℚ) (h1 : -360 < d) (h2 : d < 360) (h3 : d ≠ -180) :
    code_norm_diff d = spec_norm_diff d := by
  unfold code_norm_diff spec_norm_diff
  split_ifs with hA hB
  · have hc : ⌈(d - 180) / 360⌉ = (1 : ℤ) := by
      rw [Int.ceil_eq_iff]
      constructor
      · push_cast
        rw [lt_div_iff (by norm_num)]
        linarith
      · rw [div_le_iff (by norm_num)]
        push_cast
        linarith
    rw [hc]
    push_cast
    ring
  · have hc : ⌈(d - 180) / 360⌉ = (-1 : ℤ) := by
      rw [Int.ceil_eq_iff]
      constructor
      · push_cast
        rw [lt_div_iff (by norm_num)]
        linarith
      · rw [div_le_iff (by norm_num)]
        push_cast
        linarith
    rw [hc]
    push_cast
    ring
  · have hd : -180 < d := by
      rcases lt_or_eq_of_le (not_lt.mp hB) with h | h
      · exact h
      · exact absurd h.symm h3
    have hc : ⌈(d - 180) / 360⌉ = (0 : ℤ) := by
      rw [Int.ceil_eq_iff]
      constructor
      · push_cast
        rw [lt_div_iff (by norm_num)]
        linarith
      · rw [div_le_iff (by norm_num)]
        push_cast
        linarith [not_lt.mp hA]
    rw [hc]
    push_cast
    ring

/-! ## Claim C2 -/

/-- Claim C2 counterexample: `calculate_target_house 10 5` does not return 3;
the implementation computes `(10 + 5 - 1) % 12 = 2`. -/
theorem C2_counterexample : calculate_target_house 10 5 ≠ Except.ok 3 := by
  have h : calculate_target_house 10 5 = Except.ok 2 := rfl
  rw [h]
  simp

/-- Claim C2 (amended): `calculate_target_house` applied to `from_house = 10`
and `offset = 5` returns 2 (the offset counts houses inclusively:
`target = (from_house + offset − 1) mod 12`, with 0 mapped to 12). -/
theorem C2_theorem : calculate_target_house 10 5 = Except.ok 2 := rfl

/-! ## Claim C9 -/

/-- Claim C9: `get_house_number` raises a descriptive validation error
exactly when its cusp list does not have 12 entries, and
`calculate_target_house` raises a descriptive validation error exactly when
`from_house` is outside [1,12] or `offset` is outside [1,11]; for in-range
inputs neither operation raises. -/
theorem C9_theorem :
    (∀ (lon : ℚ) (cusps : List ℚ), cusps.length ≠ 12 →
      get_house_number lon cusps = .error "house_cusps must contain exactly 12 values")
    ∧ (∀ (lon : ℚ) (cusps : List ℚ), cusps.length = 12 →
      ∃ h, get_house_number lon cusps = .ok h)
    ∧ (∀ f o : ℤ, ¬(1 ≤ f ∧ f ≤ 12) →
      calculate_target_house f o
        = .error ("from_house must be between 1 and 12, got " ++ toString f))
    ∧ (∀ f o : ℤ, (1 ≤ f ∧ f ≤ 12) → ¬(1 ≤ o ∧ o ≤ 11) →
      calculate_target_house f o
        = .error ("offset must be between 1 and 11, got " ++ toString o))
    ∧ (∀ f o : ℤ, (1 ≤ f ∧ f ≤ 12) → (1 ≤ o ∧ o ≤ 11) →
      ∃ t, calculate_target_house f o = .ok t) := by
  refine ⟨?_, ?_, ?_, ?_, ?_⟩
  · intro lon cusps h
    simp [get_house_number, h]
  · intro lon cusps h
    refine ⟨house_scan (qmod360 lon) cusps (List.range 12), ?_⟩
    unfold get_house_number
    rw [if_neg (not_not_intro h)]
  · intro f o hf
    simp [calculate_target_house, hf]
  · intro f o hf ho
    simp [calculate_target_house, hf.1, hf.2, ho]
  · intro f o hf ho
    refine ⟨if (f + o - 1) % 12 = 0 then 12 else (f + o - 1) % 12, ?_⟩
    unfold calculate_target_house
    rw [if_neg (not_not_intro hf), if_neg (not_not_intro ho)]

/-- Claim C9 witness: the validation behavior at concrete inputs. -/
theorem C9_witness :
    get_house_number 5 [0, 30] = .error "house_cusps must contain exactly 12 values"
    ∧ (∃ h, get_house_number 5 cusps_0_30 = .ok h)
    ∧ calculate_target_house 0 5 = .error ("from_house must be between 1 and 12, got " ++ toString (0 : ℤ))
    ∧ calculate_target_house 10 12 = .error ("offset must be between 1 and 11, got " ++ toString (12 : ℤ))
    ∧ (∃ t, calculate_target_house 10 5 = .ok t) :=
  ⟨C9_theorem.1 5 [0, 30] (by decide),
   C9_theorem.2.1 5 cusps_0_30 (by decide),
   C9_theorem.2.2.1 0 5 (by decide),
   C9_theorem.2.2.2.1 10 12 (by decide) (by decide),
   C9_theorem.2.2.2.2 10 5 (by decide) (by decide)⟩

/-! ## Claim C10 -/

/-- Claim C10: `calculate_planetary_strengths` returns a strength entry for
every planet in its input list (one per entry, in order), and for Rahu and
Ketu all five dignity flags are false and the score is exactly 0.5. -/
theorem C10_theorem : ∀ (planets : List PlanetPos) (asc_rasi : String),
    (calculate_planetary_strengths planets asc_rasi).map Prod.fst = planets.map PlanetPos.name
    ∧ ∀ p ∈ planets, p.name = "Rahu" ∨ p.name = "Ketu" →
      (p.name, ({ exalted := false, debilitated := false, own_sign := false, dig_bala := false,
                  combusted := false, strength_score := 1/2 } : PlanetStrength))
        ∈ calculate_planetary_strengths planets asc_rasi := by
  intro planets asc_rasi
  constructor
  · simp [calculate_planetary_strengths]
  · intro p hp hname
    have hentry : strength_entry planets p
        = { exalted := false, debilitated := false, own_sign := false, dig_bala := false,
            combusted := false, strength_score := 1/2 } := by
      have hex : exalted_flag p = false := by
        rcases hname with h | h <;> simp [exalted_flag, h, EXALTATION, List.lookup]
      have hdeb : debilitated_flag p = false := by
        rcases hname with h | h <;> simp [debilitated_flag, h, DEBILITATION, List.lookup]
      have hown : own_sign_flag p = false := by
        rcases hname with h | h <;> simp [own_sign_flag, h, OWN_SIGNS, List.lookup]
      have hdig : dig_bala_flag p = false := by
        rcases hname with h | h <;> simp [dig_bala_flag, h, dig_bala_rules, List.lookup]
      have hcomb : combusted_flag planets p = false := by
        rcases hname with h | h <;> simp [combusted_flag, h]
      rw [strength_entry, hex, hdeb, hown, hdig, hcomb, roundq4_score]
      norm_num [score_calc]
    exact List.mem_map.2 ⟨p, hp, by rw [hentry]⟩

/-- Claim C10 witness: Rahu and Ketu entries at a concrete input. -/
theorem C10_witness :
    ("Rahu", ({ exalted := false, debilitated := false, own_sign := false, dig_bala := false,
                combusted := false, strength_score := 1/2 } : PlanetStrength))
      ∈ calculate_planetary_strengths c10_planets "Aries"
    ∧ ("Ketu", ({ exalted := false, debilitated := false, own_sign := false, dig_bala := false,
                  combusted := false, strength_score := 1/2 } : PlanetStrength))
      ∈ calculate_planetary_strengths c10_planets "Aries" :=
  ⟨(C10_theorem c10_planets "Aries").2
      ({ name := "Rahu", longitude := 123, rasi_name := "Leo", house := some 10 })
      (by simp [c10_planets]) (Or.inl rfl),
   (C10_theorem c10_planets "Aries").2
      ({ name := "Ketu", longitude := 303, rasi_name := "Aquarius", house := some 4 })
      (by simp [c10_planets]) (Or.inr rfl)⟩

/-! ## Claim C4 -/

theorem c4_venus_exalted : exalted_flag c4_venus = true := by
  have hc : circ_diff (31 : ℚ) 27 = 4 := by
    rw [circ_diff_of_bounds 31 27 (by norm_num) (by norm_num) (by norm_num) (by norm_num)]
    norm_num
  show (if circ_diff (31 : ℚ) 27 ≤ 5 then true else false) = true
  simp only [hc]
  norm_num

theorem c4_venus_debilitated : debilitated_flag c4_venus = false := by
  have hc : circ_diff (31 : ℚ) 207 = 176 := by
    rw [circ_diff_of_bounds 31 207 (by norm_num) (by norm_num) (by norm_num) (by norm_num)]
    norm_num
  show (if circ_diff (31 : ℚ) 207 ≤ 5 then true else false) = false
  simp only [hc]
  norm_num

theorem c4_venus_own : own_sign_flag c4_venus = true := rfl

theorem c4_venus_dig : dig_bala_flag c4_venus = true := rfl

theorem c4_venus_combusted : combusted_flag c4_planets c4_venus = true := by
  have hc : circ_diff (31 : ℚ) 30 = 1 := by
    rw [circ_diff_of_bounds 31 30 (by norm_num) (by norm_num) (by norm_num) (by norm_num)]
    norm_num
  show (if circ_diff (31 : ℚ) 30 < 7 then true else false) = true
  simp only [hc]
  norm_num

theorem c4b_venus_not_combusted : combusted_flag c4b_planets c4_venus = false := by
  have hc : circ_diff (31 : ℚ) 200 = 169 := by
    rw [circ_diff_of_bounds 31 200 (by norm_num) (by norm_num) (by norm_num) (by norm_num)]
    norm_num
  show (if circ_diff (31 : ℚ) 200 < 7 then true else false) = false
  simp only [hc]
  norm_num

/-- Claim C4 (amended): every planet's strength record carries the score
base 0.5, +0.3 if exalted else −0.3 if debilitated, +0.2 if own sign,
+0.15 if dig bala, −0.2 if combusted, clamped to [0,1]; a planet that is
simultaneously exalted, own-sign, dig-bala-qualified **and not combusted**
scores exactly 1.0. -/
theorem C4_theorem : ∀ (planets : List PlanetPos) (asc_rasi : String) (p : PlanetPos),
    p ∈ planets →
    ((p.name, strength_entry planets p) ∈ calculate_planetary_strengths planets asc_rasi)
    ∧ (strength_entry planets p).strength_score
        = max 0 (min 1 (1/2
          + (if exalted_flag p then 3/10 else if debilitated_flag p then -(3/10) else 0)
          + (if own_sign_flag p then 1/5 else 0)
          + (if dig_bala_flag p then 3/20 else 0)
          + (if combusted_flag planets p then -(1/5) else 0)))
    ∧ ((exalted_flag p = true ∧ own_sign_flag p = true ∧ dig_bala_flag p = true
        ∧ combusted_flag planets p = false)
       → (strength_entry planets p).strength_score = 1) := by
  intro planets asc_rasi p hp
  refine ⟨List.mem_map.2 ⟨p, hp, rfl⟩, ?_, ?_⟩
  · exact score_formula (exalted_flag p) (debilitated_flag p) (own_sign_flag p)
      (dig_bala_flag p) (combusted_flag planets p)
  · rintro ⟨he, ho, hg, hc⟩
    show roundq4 (score_calc (exalted_flag p) (debilitated_flag p) (own_sign_flag p)
      (dig_bala_flag p) (combusted_flag planets p)) = 1
    rw [he, ho, hg, hc, roundq4_score]
    cases debilitated_flag p <;> norm_num [score_calc, min_def, max_def]

/-- Claim C4 counterexample: Venus at 31° Taurus in house 4 with the Sun at
30° is simultaneously exalted, own-sign and dig-bala-qualified, yet scores
0.95 rather than 1.0, because it is also combusted. -/
theorem C4_counterexample :
    ("Venus", c4_venus_strength) ∈ calculate_planetary_strengths c4_planets "Aries"
    ∧ c4_venus_strength.exalted = true ∧ c4_venus_strength.own_sign = true
    ∧ c4_venus_strength.dig_bala = true ∧ c4_venus_strength.combusted = true
    ∧ c4_venus_strength.strength_score = 19/20
    ∧ ¬(c4_venus_strength.strength_score = 1) := by
  have hentry : c4_venus_strength
      = { exalted := true, debilitated := false, own_sign := true, dig_bala := true,
          combusted := true, strength_score := 19/20 } := by
    unfold c4_venus_strength strength_entry
    rw [c4_venus_exalted, c4_venus_debilitated, c4_venus_own, c4_venus_dig,
      c4_venus_combusted, roundq4_score]
    norm_num [score_calc, min_def, max_def]
  refine ⟨?_, ?_⟩
  · exact List.mem_map.2 ⟨c4_venus, by simp [c4_planets], rfl⟩
  · rw [hentry]
    norm_num

/-- Claim C4 witness: Venus at 31° Taurus in house 4 with the Sun far away
(200°) scores exactly 1.0. -/
theorem C4_witness : (strength_entry c4b_planets c4_venus).strength_score = 1 :=
  (C4_theorem c4b_planets "Aries" c4_venus (by simp [c4b_planets])).2.2
    ⟨c4_venus_exalted, c4_venus_own, c4_venus_dig, c4b_venus_not_combusted⟩

/-! ## Claim C6 -/

/-- Claim C6 (amended): the retrograde evaluator returns true for Rahu and
Ketu always, false for Sun and Moon (Swiss body numbers 0 and 1) always,
and for every other planet returns true iff the 6-hour finite-difference
rate is negative, where the raw longitude difference is corrected once by
±360 when it leaves [−180, 180]; for ephemeris longitudes in [0, 360) this
agrees with the spec's normalization into (−180°, 180°] except when the raw
difference is exactly −180°, which the code keeps (retrograde) while the
spec's normalization would make it +180° (direct). -/
theorem C6_theorem : ∀ (calc_ut : ℚ → ℤ → ℚ) (planet_num : ℤ) (planet_name : String) (jd : ℚ),
    ((planet_name = "Rahu" ∨ planet_name = "Ketu") →
      is_retrograde calc_ut planet_num planet_name jd = true)
    ∧ (planet_name ≠ "Rahu" → planet_name ≠ "Ketu" → (planet_num = 0 ∨ planet_num = 1) →
      is_retrograde calc_ut planet_num planet_name jd = false)
    ∧ (planet_name ≠ "Rahu" → planet_name ≠ "Ketu" → planet_num ≠ 0 → planet_num ≠ 1 →
      (is_retrograde calc_ut planet_num planet_name jd = true ↔
        code_norm_diff (calc_ut (jd + 1/4) planet_num - calc_ut jd planet_num) / (1/4) < 0))
    ∧ (planet_name ≠ "Rahu" → planet_name ≠ "Ketu" → planet_num ≠ 0 → planet_num ≠ 1 →
      0 ≤ calc_ut jd planet_num → calc_ut jd planet_num < 360 →
      0 ≤ calc_ut (jd + 1/4) planet_num → calc_ut (jd + 1/4) planet_num < 360 →
      calc_ut (jd + 1/4) planet_num - calc_ut jd planet_num ≠ -180 →
      (is_retrograde calc_ut planet_num planet_name jd = true ↔
        spec_norm_diff (calc_ut (jd + 1/4) planet_num - calc_ut jd planet_num) / (1/4) < 0)) := by
  intro f num name jd
  refine ⟨?_, ?_, ?_, ?_⟩
  · intro h
    rcases h with h | h <;> simp [is_retrograde, h]
  · intro h1 h2 h3
    rcases h3 with h3 | h3 <;> simp [is_retrograde, h1, h2, h3]
  · intro h1 h2 h3 h4
    have hname : ¬(name = "Rahu" ∨ name = "Ketu") := by
      rintro (h | h)
      exacts [h1 h, h2 h]
    have hnum : ¬(num = 0 ∨ num = 1) := by
      rintro (h | h)
      exacts [h3 h, h4 h]
    rw [is_retrograde, if_neg hname, if_neg hnum]
    exact ite_bool_eq_true _
  · intro h1 h2 h3 h4 b1 b2 b3 b4 hne
    have heq : code_norm_diff (f (jd + 1/4) num - f jd num)
        = spec_norm_diff (f (jd + 1/4) num - f jd num) :=
      code_norm_eq_spec _ (by linarith) (by linarith) hne
    have hname : ¬(name = "Rahu" ∨ name = "Ketu") := by
      rintro (h | h)
      exacts [h1 h, h2 h]
    have hnum : ¬(num = 0 ∨ num = 1) := by
      rintro (h | h)
      exacts [h3 h, h4 h]
    rw [is_retrograde, if_neg hname, if_neg hnum]
    exact (ite_bool_eq_true _).trans (by rw [heq])

/-- Claim C6 counterexample: with sidereal longitudes 180° at t and 0° at
t + 0.25 days (raw difference exactly −180°), the code reports retrograde,
while the difference normalized into (−180°, 180°] gives a positive rate. -/
theorem C6_counterexample :
    is_retrograde c6_oracle 4 "Mars" 0 = true
    ∧ 0 < spec_norm_diff (c6_oracle (0 + 1/4) 4 - c6_oracle 0 4) / (1/4) := by
  have e1 : c6_oracle 0 4 = 180 := by norm_num [c6_oracle]
  have e2 : c6_oracle (0 + 1/4) 4 = 0 := by norm_num [c6_oracle]
  constructor
  · show (if code_norm_diff (c6_oracle (0 + 1/4) 4 - c6_oracle 0 4) / (1/4) < 0
        then true else false) = true
    rw [ite_bool_eq_true, e1, e2]
    norm_num [code_norm_diff]
  · rw [e1, e2]
    have hceil : ⌈((0 : ℚ) - 180 - 180) / 360⌉ = (-1 : ℤ) := by
      rw [Int.ceil_eq_iff]
      constructor <;> norm_num
    rw [spec_norm_diff, hceil]
    norm_num

/-- Claim C6 witness: the four branches of the amended claim at concrete
oracles. -/
theorem C6_witness :
    is_retrograde c6_const_oracle 11 "Rahu" 0 = true
    ∧ is_retrograde c6_const_oracle 0 "Sun" 0 = false
    ∧ (is_retrograde c6_oracle 4 "Mars" 0 = true ↔
        code_norm_diff (c6_oracle (0 + 1/4) 4 - c6_oracle 0 4) / (1/4) < 0)
    ∧ (is_retrograde c6_const_oracle 4 "Mars" 0 = true ↔
        spec_norm_diff (c6_const_oracle (0 + 1/4) 4 - c6_const_oracle 0 4) / (1/4) < 0) :=
  ⟨(C6_theorem c6_const_oracle 11 "Rahu" 0).1 (Or.inl rfl),
   (C6_theorem c6_const_oracle 0 "Sun" 0).2.1 (by decide) (by decide) (Or.inl rfl),
   (C6_theorem c6_oracle 4 "Mars" 0).2.2.1 (by decide) (by decide) (by decide) (by decide),
   (C6_theorem c6_const_oracle 4 "Mars" 0).2.2.2 (by decide) (by decide) (by decide) (by decide)
     (by norm_num [c6_const_oracle]) (by norm_num [c6_const_oracle])
     (by norm_num [c6_const_oracle]) (by norm_num [c6_const_oracle])
     (by norm_num [c6_const_oracle])⟩

/-! ## Claim C5 -/

theorem house_arc_spec_eq (lon : ℚ) (cusps : List ℚ) (i : ℕ) :
    spec_house_arc lon cusps (i + 1) = house_arc_test lon cusps i := rfl

theorem house_scan_range'_spec (lon : ℚ) (cusps : List ℚ) :
    ∀ (n a k : ℕ), (house_scan lon cusps (List.range' a n) = k ↔
      ((∃ i, a ≤ i ∧ i < a + n ∧ house_arc_test lon cusps i = true ∧ k = i + 1 ∧
          ∀ j, a ≤ j → j < i → house_arc_test lon cusps j = false)
       ∨ (k = 1 ∧ ∀ i, a ≤ i → i < a + n → house_arc_test lon cusps i = false))) := by
  intro n
  induction n with
  | zero =>
    intro a k
    constructor
    · intro h
      right
      exact ⟨h.symm, fun i h1 h2 => absurd h2 (by omega)⟩
    · rintro (⟨i, h1, h2, _, _, _⟩ | ⟨hk, _⟩)
      · omega
      · exact hk.symm
  | succ n ih =>
    intro a k
    rw [List.range'_succ]
    simp only [house_scan]
    cases hP : house_arc_test lon cusps a with
    | true =>
      rw [if_pos rfl]
      constructor
      · intro hk
        left
        exact ⟨a, le_rfl, by omega, hP, hk.symm, fun j hj1 hj2 => absurd hj2 (by omega)⟩
      · rintro (⟨i, hai, hin, hPi, hk, hmin⟩ | ⟨hk, hall⟩)
        · rcases Nat.eq_or_lt_of_le hai with heq | hlt
          · omega
          · have hfalse := hmin a le_rfl hlt
            rw [hP] at hfalse
            simp at hfalse
        · have hfalse := hall a le_rfl (by omega)
          rw [hP] at hfalse
          simp at hfalse
    | false =>
      rw [if_neg Bool.false_ne_true]
      rw [ih (a + 1)]
      constructor
      · rintro (⟨i, hai, hin, hPi, hk, hmin⟩ | ⟨hk, hall⟩)
        · left
          refine ⟨i, by omega, by omega, hPi, hk, fun j hj1 hj2 => ?_⟩
          rcases Nat.eq_or_lt_of_le hj1 with heq | hlt
          · rw [← heq]
            exact hP
          · exact hmin j (by omega) hj2
        · right
          refine ⟨hk, fun i h1 h2 => ?_⟩
          rcases Nat.eq_or_lt_of_le h1 with heq | hlt
          · rw [← heq]
            exact hP
          · exact hall i (by omega) (by omega)
      · rintro (⟨i, hai, hin, hPi, hk, hmin⟩ | ⟨hk, hall⟩)
        · left
          have hne : a ≠ i := by
            intro he
            rw [← he, hP] at hPi
            simp at hPi
          exact ⟨i, by omega, by omega, hPi, hk, fun j hj1 hj2 => hmin j (by omega) hj2⟩
        · right
          exact ⟨hk, fun i h1 h2 => hall i (by omega) (by omega)⟩

theorem qmod360_zero : qmod360 (0 : ℚ) = 0 :=
  qmod360_of_bounds 0 (by norm_num) (by norm_num)

/-- Claim C5 (amended): for a 12-entry cusp list, `get_house_number` returns
house k (1 ≤ k ≤ 12) exactly when k is the FIRST house, in the order
k = 1..12, whose claimed half-open arc contains the normalized longitude —
not merely whenever the arc of house k contains it — and returns house 1
when no arc matches; with cusps `[0, 30, ..., 330]`, longitude 29.999
resolves to house 1 and longitude 30.0 to house 2. -/
theorem C5_theorem :
    (∀ (lon : ℚ) (cusps : List ℚ), cusps.length = 12 → ∀ k : ℕ, 1 ≤ k → k ≤ 12 →
      (get_house_number lon cusps = .ok k ↔
        ((spec_house_arc (qmod360 lon) cusps k = true ∧
          ∀ j, 1 ≤ j → j < k → spec_house_arc (qmod360 lon) cusps j = false)
         ∨ (k = 1 ∧ ∀ j, 1 ≤ j → j ≤ 12 → spec_house_arc (qmod360 lon) cusps j = false))))
    ∧ get_house_number (29999/1000) cusps_0_30 = .ok 1
    ∧ get_house_number 30 cusps_0_30 = .ok 2 := by
  refine ⟨?_, ?_, ?_⟩
  · intro lon cusps h12 k hk1 hk2
    unfold get_house_number
    rw [if_neg (not_not_intro h12), List.range_eq_range']
    have hinj : (Except.ok (house_scan (qmod360 lon) cusps (List.range' 0 12))
        : Except String ℕ) = .ok k ↔ house_scan (qmod360 lon) cusps (List.range' 0 12) = k := by
      simp
    rw [hinj, house_scan_range'_spec]
    constructor
    · rintro (⟨i, _, hi12, hPi, hk, hmin⟩ | ⟨hk, hall⟩)
      · left
        subst hk
        constructor
        · rw [house_arc_spec_eq]
          exact hPi
        · intro j hj1 hj2
          obtain ⟨j', rfl⟩ : ∃ j', j = j' + 1 := ⟨j - 1, by omega⟩
          rw [house_arc_spec_eq]
          exact hmin j' (by omega) (by omega)
      · right
        refine ⟨hk, fun j hj1 hj2 => ?_⟩
        obtain ⟨j', rfl⟩ : ∃ j', j = j' + 1 := ⟨j - 1, by omega⟩
        rw [house_arc_spec_eq]
        exact hall j' (by omega) (by omega)
    · intro hspec
      obtain ⟨k', rfl⟩ : ∃ k', k = k' + 1 := ⟨k - 1, by omega⟩
      rcases hspec with ⟨hPk, hmin⟩ | ⟨hk, hall⟩
      · left
        rw [house_arc_spec_eq] at hPk
        refine ⟨k', by omega, by omega, hPk, rfl, fun j hj0 hjk => ?_⟩
        have := hmin (j + 1) (by omega) (by omega)
        rw [house_arc_spec_eq] at this
        exact this
      · right
        refine ⟨hk, fun i h0 hi12 => ?_⟩
        have := hall (i + 1) (by omega) (by omega)
        rw [house_arc_spec_eq] at this
        exact this
  · have hq : qmod360 (29999/1000 : ℚ) = 29999/1000 :=
      qmod360_of_bounds _ (by norm_num) (by norm_num)
    have hq30 : qmod360 (30 : ℚ) = 30 := qmod360_of_bounds 30 (by norm_num) (by norm_num)
    have ht0 : house_arc_test (29999/1000 : ℚ) cusps_0_30 0 = true := by
      simp only [house_arc_test, cusps_0_30]
      norm_num [qmod360_zero, hq30]
    unfold get_house_number
    rw [if_neg (not_not_intro (show cusps_0_30.length = 12 from rfl)), hq]
    have hrange : List.range 12 = 0 :: [1, 2, 3, 4, 5, 6, 7, 8, 9, 10, 11] := by decide
    rw [hrange]
    simp only [house_scan, ht0, if_pos rfl]
    simp
  · have hq30 : qmod360 (30 : ℚ) = 30 := qmod360_of_bounds 30 (by norm_num) (by norm_num)
    have hq60 : qmod360 (60 : ℚ) = 60 := qmod360_of_bounds 60 (by norm_num) (by norm_num)
    have ht0 : house_arc_test (30 : ℚ) cusps_0_30 0 = false := by
      simp only [house_arc_test, cusps_0_30]
      norm_num [qmod360_zero, hq30]
    have ht1 : house_arc_test (30 : ℚ) cusps_0_30 1 = true := by
      simp only [house_arc_test, cusps_0_30]
      norm_num [hq30, hq60]
    unfold get_house_number
    rw [if_neg (not_not_intro (show cusps_0_30.length = 12 from rfl)), hq30]
    have hrange : List.range 12 = 0 :: 1 :: [2, 3, 4, 5, 6, 7, 8, 9, 10, 11] := by decide
    rw [hrange]
    simp only [house_scan, ht0, ht1, if_pos rfl, if_neg Bool.false_ne_true]
    simp

/-- Claim C5 counterexample: with an ill-ordered (but 12-entry) cusp list
whose arcs overlap, longitude 55° lies inside the claimed arc of house 3
(`[50, 60)`) yet `get_house_number` returns house 1, because the arc of
house 1 (`[0, 100)`) is tested first — so "returns house k exactly when the
longitude falls in arc k" is false as stated. -/
theorem C5_counterexample :
    get_house_number 55 cusps_overlap = .ok 1
    ∧ get_house_number 55 cusps_overlap ≠ .ok 3
    ∧ spec_house_arc (qmod360 55) cusps_overlap 3 = true := by
  have hq55 : qmod360 (55 : ℚ) = 55 := qmod360_of_bounds 55 (by norm_num) (by norm_num)
  have hq100 : qmod360 (100 : ℚ) = 100 := qmod360_of_bounds 100 (by norm_num) (by norm_num)
  have hq50 : qmod360 (50 : ℚ) = 50 := qmod360_of_bounds 50 (by norm_num) (by norm_num)
  have hq60 : qmod360 (60 : ℚ) = 60 := qmod360_of_bounds 60 (by norm_num) (by norm_num)
  have h1 : get_house_number 55 cusps_overlap = .ok 1 := by
    have ht0 : house_arc_test (55 : ℚ) cusps_overlap 0 = true := by
      simp only [house_arc_test, cusps_overlap]
      norm_num [qmod360_zero, hq100]
    unfold get_house_number
    rw [if_neg (not_not_intro (show cusps_overlap.length = 12 from rfl)), hq55]
    have hrange : List.range 12 = 0 :: [1, 2, 3, 4, 5, 6, 7, 8, 9, 10, 11] := by decide
    rw [hrange]
    simp only [house_scan, ht0, if_pos rfl]
    simp
  refine ⟨h1, ?_, ?_⟩
  · rw [h1]
    simp
  · rw [hq55]
    simp only [spec_house_arc, cusps_overlap]
    norm_num [hq50, hq60]

/-- Claim C5 witness: the first-match characterization applied at
longitude 30 with the even cusp list, house 2. -/
theorem C5_witness :
    (spec_house_arc (qmod360 30) cusps_0_30 2 = true
      ∧ ∀ j, 1 ≤ j → j < 2 → spec_house_arc (qmod360 30) cusps_0_30 j = false)
    ∨ (2 = 1 ∧ ∀ j, 1 ≤ j → j ≤ 12 → spec_house_arc (qmod360 30) cusps_0_30 j = false) :=
  (C5_theorem.1 30 cusps_0_30 rfl 2 (by norm_num) (by norm_num)).mp C5_theorem.2.2

/-! ## Claim C3 -/

theorem factor_score_nonneg (f : Factor) : 0 ≤ f.score := by
  cases f <;> norm_num [Factor.score]

theorem categorize_spec (s : ℚ) :
    (7/10 ≤ s → categorize_correlation_strength s = "Very High")
    ∧ (1/2 ≤ s → s < 7/10 → categorize_correlation_strength s = "High")
    ∧ (3/10 ≤ s → s < 1/2 → categorize_correlation_strength s = "Medium")
    ∧ (s < 3/10 → categorize_correlation_strength s = "Low") := by
  unfold categorize_correlation_strength
  refine ⟨?_, ?_, ?_, ?_⟩
  · intro h
    rw [if_pos h]
  · intro h1 h2
    rw [if_neg (not_le.mpr h2), if_pos h1]
  · intro h1 h2
    rw [if_neg (not_le.mpr (by linarith)), if_neg (not_le.mpr h2), if_pos h1]
  · intro h
    rw [if_neg (not_le.mpr (by linarith)), if_neg (not_le.mpr (by linarith)),
      if_neg (not_le.mpr h)]

/-- Claim C3: the correlation score is the sum of the emitted factor scores
capped at 1.0, lies in [0, 1], and the strength label follows the bands
≥0.7 "Very High", ≥0.5 "High", ≥0.3 "Medium", else "Low". -/
theorem C3_theorem : ∀ (event_chart snapshot_chart : ChartDict) (snapshot_id : ℤ),
    (correlate_event_with_snapshot event_chart snapshot_chart snapshot_id).correlation_score
      = min (((correlate_event_with_snapshot event_chart snapshot_chart
          snapshot_id).correlations.map Factor.score).sum) 1
    ∧ 0 ≤ (correlate_event_with_snapshot event_chart snapshot_chart
        snapshot_id).correlation_score
    ∧ (correlate_event_with_snapshot event_chart snapshot_chart
        snapshot_id).correlation_score ≤ 1
    ∧ (7/10 ≤ (correlate_event_with_snapshot event_chart snapshot_chart
          snapshot_id).correlation_score →
        (correlate_event_with_snapshot event_chart snapshot_chart snapshot_id).strength
          = "Very High")
    ∧ (1/2 ≤ (correlate_event_with_snapshot event_chart snapshot_chart
          snapshot_id).correlation_score →
        (correlate_event_with_snapshot event_chart snapshot_chart
          snapshot_id).correlation_score < 7/10 →
        (correlate_event_with_snapshot event_chart snapshot_chart snapshot_id).strength
          = "High")
    ∧ (3/10 ≤ (correlate_event_with_snapshot event_chart snapshot_chart
          snapshot_id).correlation_score →
        (correlate_event_with_snapshot event_chart snapshot_chart
          snapshot_id).correlation_score < 1/2 →
        (correlate_event_with_snapshot event_chart snapshot_chart snapshot_id).strength
          = "Medium")
    ∧ ((correlate_event_with_snapshot event_chart snapshot_chart
          snapshot_id).correlation_score < 3/10 →
        (correlate_event_with_snapshot event_chart snapshot_chart snapshot_id).strength
          = "Low") := by
  intro e s id
  have hst : (correlate_event_with_snapshot e s id).strength
      = categorize_correlation_strength
          ((correlate_event_with_snapshot e s id).correlation_score) := rfl
  have hnn : 0 ≤ (correlate_event_with_snapshot e s id).correlation_score := by
    show 0 ≤ min (((correlate_event_with_snapshot e s id).correlations.map Factor.score).sum) 1
    refine le_min ?_ (by norm_num)
    refine List.sum_nonneg ?_
    intro x hx
    obtain ⟨f, _, rfl⟩ := List.mem_map.1 hx
    exact factor_score_nonneg f
  refine ⟨rfl, hnn, min_le_right _ _, ?_, ?_, ?_, ?_⟩
  · intro h
    rw [hst]
    exact (categorize_spec _).1 h
  · intro h1 h2
    rw [hst]
    exact (categorize_spec _).2.1 h1 h2
  · intro h1 h2
    rw [hst]
    exact (categorize_spec _).2.2.1 h1 h2
  · intro h
    rw [hst]
    exact (categorize_spec _).2.2.2 h

/-- Claim C3 witness: empty charts yield score 0 and label "Low". -/
theorem C3_witness :
    (correlate_event_with_snapshot empty_chart empty_chart 0).strength = "Low"
    ∧ 0 ≤ (correlate_event_with_snapshot empty_chart empty_chart 0).correlation_score := by
  have hcorr : (correlate_event_with_snapshot empty_chart empty_chart 0).correlations = [] := rfl
  have h0 : (correlate_event_with_snapshot empty_chart empty_chart 0).correlation_score = 0 := by
    have h1 : (correlate_event_with_snapshot empty_chart empty_chart 0).correlation_score
        = calculate_correlation_score
            ((correlate_event_with_snapshot empty_chart empty_chart 0).correlations) := rfl
    rw [h1, hcorr]
    unfold calculate_correlation_score
    simp only [List.map_nil, List.sum_nil]
    exact min_eq_left (by norm_num)
  exact ⟨(C3_theorem empty_chart empty_chart 0).2.2.2.2.2.2 (by rw [h0]; norm_num),
    (C3_theorem empty_chart empty_chart 0).2.1⟩

/-! ## Claim C8 -/

theorem lagna_factors_shape (e s : ChartDict) :
    ∀ f ∈ lagna_factors e s, ∃ r d1 d2, f = Factor.lagna_match r d1 d2 := by
  intro f hf
  unfold lagna_factors at hf
  split_ifs at hf
  · exact ⟨_, _, _, List.mem_singleton.1 hf⟩
  · cases hf
  · cases hf

theorem retro_factors_shape (e s : ChartDict) :
    ∀ f ∈ retro_factors e s, ∃ p, f = Factor.retrograde_match p := by
  intro f hf
  obtain ⟨p, _, rfl⟩ := List.mem_map.1 hf
  exact ⟨p, rfl⟩

theorem house_factor_for_shape (e s : ChartDict) (n : String) (f : Factor)
    (h : house_factor_for e s n = some f) : ∃ hh, f = Factor.planetary_house_match n hh := by
  unfold house_factor_for at h
  repeat' split at h
  all_goals first
    | (exact ⟨_, (Option.some.inj h).symm⟩)
    | (exact Option.noConfusion h)

theorem house_factors_shape (e s : ChartDict) :
    ∀ f ∈ house_factors e s, ∃ m hh, f = Factor.planetary_house_match m hh := by
  intro f hf
  obtain ⟨m, _, hm⟩ := List.mem_filterMap.1 hf
  obtain ⟨hh, rfl⟩ := house_factor_for_shape e s m f hm
  exact ⟨m, hh, rfl⟩

theorem aspect_step_shape (a : Aspect) (st : List (String × ℤ × String) × List Factor)
    (b : Aspect) (hinv : ∀ f ∈ st.2, ∃ p t th, f = Factor.aspect_match p t th) :
    ∀ f ∈ (aspect_step a st b).2, ∃ p t th, f = Factor.aspect_match p t th := by
  unfold aspect_step
  split_ifs with h
  · intro f hf
    rcases List.mem_append.1 hf with h1 | h1
    · exact hinv f h1
    · rcases List.mem_singleton.1 h1 with rfl
      exact ⟨_, _, _, rfl⟩
  · exact hinv

theorem aspect_inner_shape (a : Aspect) (sa : List Aspect) :
    ∀ (st : List (String × ℤ × String) × List Factor),
      (∀ f ∈ st.2, ∃ p t th, f = Factor.aspect_match p t th) →
      ∀ f ∈ (sa.foldl (aspect_step a) st).2, ∃ p t th, f = Factor.aspect_match p t th := by
  induction sa with
  | nil => intro st h; exact h
  | cons b rest ih =>
    intro st h
    rw [List.foldl_cons]
    exact ih (aspect_step a st b) (aspect_step_shape a st b h)

theorem aspect_outer_shape (sa : List Aspect) :
    ∀ (ea : List Aspect) (st : List (String × ℤ × String) × List Factor),
      (∀ f ∈ st.2, ∃ p t th, f = Factor.aspect_match p t th) →
      ∀ f ∈ (ea.foldl (fun st a => sa.foldl (aspect_step a) st) st).2,
        ∃ p t th, f = Factor.aspect_match p t th := by
  intro ea
  induction ea with
  | nil => intro st h; exact h
  | cons a rest ih =>
    intro st h
    rw [List.foldl_cons]
    exact ih (sa.foldl (aspect_step a) st) (aspect_inner_shape a sa st h)

theorem aspect_factors_shape (e s : ChartDict) :
    ∀ f ∈ aspect_factors e s, ∃ p t th, f = Factor.aspect_match p t th := by
  unfold aspect_factors
  split
  · apply aspect_outer_shape
    intro f hf
    cases hf
  · intro f hf
    cases hf

theorem rasi_factor_for_shape (e s : ChartDict) (acc : List Factor) (n : String) (f : Factor)
    (h : rasi_factor_for e s acc n = some f) : ∃ r, f = Factor.planetary_rasi_match n r := by
  unfold rasi_factor_for at h
  repeat' split at h
  all_goals first
    | (exact ⟨_, (Option.some.inj h).symm⟩)
    | (exact Option.noConfusion h)

theorem rasi_factor_for_congr (e s : ChartDict) (acc acc' : List Factor) (n : String)
    (h : acc.any (is_house_match_for n) = acc'.any (is_house_match_for n)) :
    rasi_factor_for e s acc n = rasi_factor_for e s acc' n := by
  unfold rasi_factor_for
  simp only [h]

theorem any_house_append_rasi (acc : List Factor) (n m : String) (opt : Option Factor)
    (hopt : ∀ f, opt = some f → ∃ r, f = Factor.planetary_rasi_match m r) :
    (acc ++ opt.toList).any (is_house_match_for n) = acc.any (is_house_match_for n) := by
  cases opt with
  | none => simp
  | some f =>
    obtain ⟨r, rfl⟩ := hopt f rfl
    simp [is_house_match_for]

theorem rasi_fold_eq (e s : ChartDict) :
    ∀ (names : List String) (acc : List Factor),
      rasi_fold e s names acc = acc ++ names.filterMap (fun n => rasi_factor_for e s acc n) := by
  intro names
  induction names with
  | nil =>
    intro acc
    simp [rasi_fold]
  | cons n rest ih =>
    intro acc
    rw [rasi_fold, ih]
    have hstable : ∀ m ∈ rest,
        rasi_factor_for e s (acc ++ (rasi_factor_for e s acc n).toList) m
          = rasi_factor_for e s acc m := by
      intro m _
      refine rasi_factor_for_congr e s _ _ m ?_
      exact any_house_append_rasi acc m n _ (fun f hf => rasi_factor_for_shape e s acc n f hf)
    rw [List.filterMap_congr hstable]
    cases hopt : rasi_factor_for e s acc n with
    | none => simp [List.filterMap_cons, hopt]
    | some f => simp [List.filterMap_cons, hopt]

theorem rasi_factor_for_some_iff (e s : ChartDict) (acc : List Factor) (n : String) :
    (∃ f, rasi_factor_for e s acc n = some f) ↔
      (rasi_cond e s n = true ∧ acc.any (is_house_match_for n) = false) := by
  unfold rasi_factor_for rasi_cond
  rcases hle : e.planetary_positions.lookup n with _ | ep <;>
    rcases hls : s.planetary_positions.lookup n with _ | sp <;>
      simp only []
  · simp
  · simp
  · simp
  · simp only [get_planet_rasi]
    rcases her : ep.rasi with _ | er <;> rcases hsr : sp.rasi with _ | sr <;> simp only []
    · simp
    · simp
    · simp
    · cases hb : (er != "" && sr != "" && er == sr) with
      | false => simp [hb]
      | true =>
        simp only [hb, if_true]
        cases hany : acc.any (is_house_match_for n) with
        | false => simp [hany]
        | true => simp [hany]

/-- The rasi phase over `planet_names`, starting from a rasi-free
accumulated list: a rasi factor for planet n appears in the final list iff
n is one of the nine planet names, the rasi-agreement condition holds, and
no house-match factor for n is in the final list. -/
theorem rasi_phase_any (e s : ChartDict) (corr0 : List Factor) (n : String)
    (h0 : ∀ f ∈ corr0, is_rasi_match_for n f = false) :
    ((rasi_fold e s planet_names corr0).any (is_rasi_match_for n) = true ↔
      (n ∈ planet_names ∧ rasi_cond e s n = true
        ∧ (rasi_fold e s planet_names corr0).any (is_house_match_for n) = false)) := by
  rw [rasi_fold_eq]
  have hAddsHouse : (planet_names.filterMap (fun m => rasi_factor_for e s corr0 m)).any
      (is_house_match_for n) = false := by
    cases hx : (planet_names.filterMap (fun m => rasi_factor_for e s corr0 m)).any
        (is_house_match_for n) with
    | false => rfl
    | true =>
      exfalso
      obtain ⟨f, hf, hpf⟩ := List.any_eq_true.1 hx
      obtain ⟨m, _, hm⟩ := List.mem_filterMap.1 hf
      obtain ⟨r, rfl⟩ := rasi_factor_for_shape e s corr0 m f hm
      exact Bool.false_ne_true hpf
  have hA : (corr0 ++ planet_names.filterMap (fun m => rasi_factor_for e s corr0 m)).any
      (is_house_match_for n) = corr0.any (is_house_match_for n) := by
    rw [List.any_append, hAddsHouse, Bool.or_false]
  have hCorr0Rasi : corr0.any (is_rasi_match_for n) = false := by
    cases hx : corr0.any (is_rasi_match_for n) with
    | false => rfl
    | true =>
      exfalso
      obtain ⟨f, hf, hpf⟩ := List.any_eq_true.1 hx
      rw [h0 f hf] at hpf
      exact Bool.false_ne_true hpf
  have hB : (corr0 ++ planet_names.filterMap (fun m => rasi_factor_for e s corr0 m)).any
      (is_rasi_match_for n)
      = (planet_names.filterMap (fun m => rasi_factor_for e s corr0 m)).any
          (is_rasi_match_for n) := by
    rw [List.any_append, hCorr0Rasi, Bool.false_or]
  rw [hA, hB]
  constructor
  · intro h
    obtain ⟨f, hf, hpf⟩ := List.any_eq_true.1 h
    obtain ⟨m, hmem, hm⟩ := List.mem_filterMap.1 hf
    obtain ⟨r, rfl⟩ := rasi_factor_for_shape e s corr0 m f hm
    have hmn : m = n := by simpa [is_rasi_match_for] using hpf
    subst hmn
    have hcond := (rasi_factor_for_some_iff e s corr0 m).1 ⟨_, hm⟩
    exact ⟨hmem, hcond.1, hcond.2⟩
  · rintro ⟨hmem, hcond, hhouse⟩
    obtain ⟨f, hfor⟩ := (rasi_factor_for_some_iff e s corr0 n).2 ⟨hcond, hhouse⟩
    apply List.any_eq_true.2
    refine ⟨f, List.mem_filterMap.2 ⟨n, hmem, hfor⟩, ?_⟩
    obtain ⟨r, rfl⟩ := rasi_factor_for_shape e s corr0 n f hfor
    simp [is_rasi_match_for]

/-- Claim C8: a 0.05 rasi-match factor for planet n is emitted iff n is one
of the nine planets, both charts carry the same truthy rasi name for n, and
no house-match factor for n was recorded — hence no planet ever contributes
both a house match and a rasi match. -/
theorem C8_theorem : ∀ (event_chart snapshot_chart : ChartDict) (snapshot_id : ℤ) (n : String),
    ((correlate_event_with_snapshot event_chart snapshot_chart snapshot_id).correlations.any
        (is_rasi_match_for n) = true
      ↔ (n ∈ planet_names ∧ rasi_cond event_chart snapshot_chart n = true
          ∧ (correlate_event_with_snapshot event_chart snapshot_chart
              snapshot_id).correlations.any (is_house_match_for n) = false))
    ∧ ¬((correlate_event_with_snapshot event_chart snapshot_chart snapshot_id).correlations.any
          (is_rasi_match_for n) = true
        ∧ (correlate_event_with_snapshot event_chart snapshot_chart snapshot_id).correlations.any
            (is_house_match_for n) = true) := by
  intro e s id n
  have hcorr : (correlate_event_with_snapshot e s id).correlations
      = rasi_fold e s planet_names (lagna_factors e s ++ retro_factors e s
          ++ house_factors e s ++ aspect_factors e s) := rfl
  have h0 : ∀ f ∈ (lagna_factors e s ++ retro_factors e s
      ++ house_factors e s ++ aspect_factors e s), is_rasi_match_for n f = false := by
    intro f hf
    rcases List.mem_append.1 hf with hf | hf4
    · rcases List.mem_append.1 hf with hf | hf3
      · rcases List.mem_append.1 hf with hf1 | hf2
        · obtain ⟨r, d1, d2, rfl⟩ := lagna_factors_shape e s f hf1
          rfl
        · obtain ⟨p, rfl⟩ := retro_factors_shape e s f hf2
          rfl
      · obtain ⟨m, hh, rfl⟩ := house_factors_shape e s f hf3
        rfl
    · obtain ⟨p, t, th, rfl⟩ := aspect_factors_shape e s f hf4
      rfl
  have hmain := rasi_phase_any e s (lagna_factors e s ++ retro_factors e s
      ++ house_factors e s ++ aspect_factors e s) n h0
  rw [← hcorr] at hmain
  refine ⟨hmain, ?_⟩
  rintro ⟨h1, h2⟩
  have := (hmain.1 h1).2.2
  rw [this] at h2
  exact Bool.false_ne_true h2

/-- Claim C8 witness: Mars shares rasi "Aries" in both charts and has no
house, so a rasi-match factor is emitted; and indeed no house-match factor
for Mars exists. -/
theorem C8_witness :
    (correlate_event_with_snapshot c8_event c8_snapshot 5).correlations.any
      (is_rasi_match_for "Mars") = true :=
  (C8_theorem c8_event c8_snapshot 5 "Mars").1.mpr ⟨by decide, rfl, rfl⟩

/-! ## Claim C7 -/

theorem eok_bind {ε α β : Type} (a : α) (f : α → Except ε β) :
    (Except.ok a : Except ε α) >>= f = f a := rfl

theorem lookup_mem {α β : Type} [BEq α] [LawfulBEq α] :
    ∀ (l : List (α × β)) (a : α) (b : β), l.lookup a = some b → (a, b) ∈ l := by
  intro l
  induction l with
  | nil => intro a b h; cases h
  | cons kv rest ih =>
    intro a b h
    rcases kv with ⟨k, v⟩
    rw [List.lookup] at h
    cases hk : (a == k) with
    | true =>
      rw [hk] at h
      simp only [cond_true] at h
      rcases Option.some.inj h with rfl
      rcases eq_of_beq hk with rfl
      exact List.mem_cons_self _ _
    | false =>
      rw [hk] at h
      simp only [cond_false] at h
      exact List.mem_cons_of_mem _ (ih a b h)

theorem aspect_rules_offsets : ∀ (n : String) (offs : List ℤ),
    ASPECT_RULES.lookup n = some offs → ∀ o ∈ offs, 1 ≤ o ∧ o ≤ 11 := by
  intro n offs h
  have hmem := lookup_mem ASPECT_RULES n offs h
  fin_cases hmem <;> (intro o ho; simp at ho; omega)

theorem calculate_target_house_ok (h o : ℤ) (h1 : 1 ≤ h) (h2 : h ≤ 12) (h3 : 1 ≤ o)
    (h4 : o ≤ 11) : calculate_target_house h o = .ok (target_house_val h o) := by
  unfold calculate_target_house target_house_val
  rw [if_neg (not_not_intro ⟨h1, h2⟩), if_neg (not_not_intro ⟨h3, h4⟩)]

theorem aspects_for_eq (planet_name : String) (d : PlanetData) (h : ℤ) (h1 : 1 ≤ h)
    (h2 : h ≤ 12) : ∀ (offs : List ℤ), (∀ o ∈ offs, 1 ≤ o ∧ o ≤ 11) →
    aspects_for planet_name d h offs
      = .ok (offs.map (fun o => mk_aspect planet_name d h (target_house_val h o) o)) := by
  intro offs
  induction offs with
  | nil => intro _; rfl
  | cons o rest ih =>
    intro hok
    have ho := hok o (List.mem_cons_self _ _)
    rw [aspects_for, calculate_target_house_ok h o h1 h2 ho.1 ho.2, eok_bind,
      ih (fun o' ho' => hok o' (List.mem_cons_of_mem _ ho')), eok_bind]
    rfl

theorem planet_aspects_eq (planet_name : String) (d : PlanetData) (h : ℤ)
    (hhouse : d.house = some h) (h1 : 1 ≤ h) (h2 : h ≤ 12) :
    planet_aspects planet_name d
      = .ok (((ASPECT_RULES.lookup planet_name).getD []).map
          (fun o => mk_aspect planet_name d h (target_house_val h o) o)) := by
  unfold planet_aspects
  cases hlk : ASPECT_RULES.lookup planet_name with
  | none => simp [hlk]
  | some offs =>
    simp only [hlk, hhouse, Option.getD_some]
    rw [if_neg (not_not_intro ⟨h1, h2⟩)]
    exact aspects_for_eq planet_name d h h1 h2 offs (aspect_rules_offsets planet_name offs hlk)

theorem calc_aspects_count : ∀ (planets : List (String × PlanetData)),
    (∀ pd ∈ planets, ∃ h, pd.2.house = some h ∧ 1 ≤ h ∧ h ≤ 12) →
    ∃ A, calculate_all_aspects planets = .ok A ∧
      ∀ n : String, A.countP (fun a => a.planet == n)
        = planets.countP (fun pd => pd.1 == n)
            * ((ASPECT_RULES.lookup n).getD []).length := by
  intro planets
  induction planets with
  | nil => exact fun _ => ⟨[], rfl, by simp⟩
  | cons md rest ih =>
    intro hall
    rcases md with ⟨m, d⟩
    obtain ⟨h, hhouse, h1, h2⟩ := hall (m, d) (List.mem_cons_self _ _)
    obtain ⟨R, hR, hcount⟩ := ih (fun pd hpd => hall pd (List.mem_cons_of_mem _ hpd))
    refine ⟨((ASPECT_RULES.lookup m).getD []).map
        (fun o => mk_aspect m d h (target_house_val h o) o) ++ R, ?_, ?_⟩
    · show calculate_all_aspects ((m, d) :: rest) = _
      rw [calculate_all_aspects, planet_aspects_eq m d h hhouse h1 h2, eok_bind, hR, eok_bind]
    · intro n
      rw [List.countP_append, hcount n, List.countP_map, List.countP_cons]
      have hblock : List.countP ((fun a => a.planet == n)
            ∘ fun o => mk_aspect m d h (target_house_val h o) o)
            ((ASPECT_RULES.lookup m).getD [])
          = (if (m == n) = true then 1 else 0) * ((ASPECT_RULES.lookup n).getD []).length := by
        cases hmn : (m == n) with
        | true =>
          rcases eq_of_beq hmn with rfl
          have hfun : ((fun a => a.planet == m) ∘ fun o => mk_aspect m d h (target_house_val h o) o)
              = fun _ => true := by
            funext o
            simp [mk_aspect]
          rw [hfun, List.countP_true]
          simp
        | false =>
          have hfun : ((fun a => a.planet == n) ∘ fun o => mk_aspect m d h (target_house_val h o) o)
              = fun _ => false := by
            funext o
            simp [mk_aspect, hmn]
          rw [hfun, List.countP_false]
          simp [hmn]
      rw [hblock]
      cases hmn : (m == n) <;> simp [hmn] <;> ring

/-- Claim C7: for a planets map (unique keys) listing all nine rule-table
planets, each with a house in [1,12], `calculate_all_aspects` succeeds and
produces exactly one aspect record per (planet, offset) pair: 3 records
each for Jupiter, Saturn, Mars, Rahu, Ketu and 1 each for Sun, Moon,
Mercury, Venus. -/
theorem C7_theorem : ∀ (planets : List (String × PlanetData)),
    (planets.map Prod.fst).Nodup →
    (∀ pd ∈ planets, ∃ h, pd.2.house = some h ∧ 1 ≤ h ∧ h ≤ 12) →
    (∀ n ∈ rule_planets, n ∈ planets.map Prod.fst) →
    ∃ A, calculate_all_aspects planets = .ok A
      ∧ (∀ n ∈ (["Jupiter", "Saturn", "Mars", "Rahu", "Ketu"] : List String),
          A.countP (fun a => a.planet == n) = 3)
      ∧ (∀ n ∈ (["Sun", "Moon", "Mercury", "Venus"] : List String),
          A.countP (fun a => a.planet == n) = 1) := by
  intro planets hnd hhouses hmem
  obtain ⟨A, hA, hcount⟩ := calc_aspects_count planets hhouses
  have hcnt : ∀ n ∈ rule_planets, planets.countP (fun pd => pd.1 == n) = 1 := by
    intro n hn
    have hx : (planets.map Prod.fst).count n = 1 :=
      List.count_eq_one_of_mem hnd (hmem n hn)
    calc planets.countP (fun pd => pd.1 == n)
        = List.countP (fun x => x == n) (planets.map Prod.fst) :=
          (List.countP_map (fun x => x == n) Prod.fst planets).symm
      _ = 1 := hx
  refine ⟨A, hA, ?_, ?_⟩
  · intro n hn
    fin_cases hn <;>
      rw [hcount, hcnt _ (by decide)] <;> rfl
  · intro n hn
    fin_cases hn <;>
      rw [hcount, hcnt _ (by decide)] <;> rfl

/-- Claim C7 witness: the nine-planet map with every planet in house 5. -/
theorem C7_witness : ∃ A, calculate_all_aspects c7_planets = .ok A
    ∧ (∀ n ∈ (["Jupiter", "Saturn", "Mars", "Rahu", "Ketu"] : List String),
        A.countP (fun a => a.planet == n) = 3)
    ∧ (∀ n ∈ (["Sun", "Moon", "Mercury", "Venus"] : List String),
        A.countP (fun a => a.planet == n) = 1) :=
  C7_theorem c7_planets (by decide)
    (fun pd hpd => by fin_cases hpd <;> exact ⟨5, rfl, by decide, by decide⟩)
    (fun n hn => by fin_cases hn <;> decide)

/-! ## Claim C1: aspect-fold machinery -/

theorem aspect_match_cond_refl (a : Aspect) : aspect_match_cond a a = true := by
  simp [aspect_match_cond]

theorem aspect_match_cond_proj {a b : Aspect} (h : aspect_match_cond a b = true) :
    aspect_proj a = aspect_proj b := by
  unfold aspect_match_cond at h
  simp only [Bool.and_eq_true, beq_iff_eq] at h
  exact Prod.ext h.1.1 h.2

theorem aspect_key_beq_false {a b : Aspect} (h : aspect_proj a ≠ aspect_proj b) :
    aspect_key_beq (aspect_match_key a) (aspect_match_key b) = false := by
  unfold aspect_key_beq aspect_match_key
  cases hp : (a.planet == b.planet) with
  | false => simp [hp]
  | true =>
    cases ht : (a.aspect_type == b.aspect_type) with
    | false => simp [hp, ht]
    | true =>
      exfalso
      exact h (Prod.ext (eq_of_beq hp) (eq_of_beq ht))

theorem fold_aspect_step_no_match (a : Aspect) :
    ∀ (sa : List Aspect) (st : List (String × ℤ × String) × List Factor),
      (∀ b ∈ sa, aspect_match_cond a b = false) → sa.foldl (aspect_step a) st = st := by
  intro sa
  induction sa with
  | nil => intro st _; rfl
  | cons b rest ih =>
    intro st h
    rw [List.foldl_cons]
    have hstep : aspect_step a st b = st := by
      simp [aspect_step, h b (List.mem_cons_self _ _)]
    rw [hstep]
    exact ih st (fun b' hb' => h b' (List.mem_cons_of_mem _ hb'))

theorem fold_aspect_step_single (a : Aspect) :
    ∀ (sa : List Aspect) (st : List (String × ℤ × String) × List Factor),
      sa.filter (aspect_match_cond a) = [a] →
      key_mem st.1 (aspect_match_key a) = false →
      sa.foldl (aspect_step a) st
        = (aspect_match_key a :: st.1,
           st.2 ++ [Factor.aspect_match a.planet a.aspect_type a.to_house]) := by
  intro sa
  induction sa with
  | nil =>
    intro st hf _
    cases hf
  | cons b rest ih =>
    intro st hf hk
    rw [List.foldl_cons]
    cases hc : aspect_match_cond a b with
    | false =>
      have hstep : aspect_step a st b = st := by simp [aspect_step, hc]
      rw [hstep]
      rw [List.filter_cons_of_neg (by simp [hc])] at hf
      exact ih st hf hk
    | true =>
      rw [List.filter_cons_of_pos hc] at hf
      injection hf with hb hrest
      subst hb
      have hstep : aspect_step b st b
          = (aspect_match_key b :: st.1,
             st.2 ++ [Factor.aspect_match b.planet b.aspect_type b.to_house]) := by
        simp [aspect_step, aspect_match_cond_refl, hk]
      rw [hstep]
      apply fold_aspect_step_no_match
      intro b' hb'
      have := List.filter_eq_nil_iff.1 hrest b' hb'
      cases hcb : aspect_match_cond b b' with
      | false => rfl
      | true => exact absurd hcb this

theorem fold_aspect_outer (A : List Aspect) :
    ∀ (ea : List Aspect) (st : List (String × ℤ × String) × List Factor),
      (∀ a ∈ ea, A.filter (aspect_match_cond a) = [a]) →
      (∀ a ∈ ea, key_mem st.1 (aspect_match_key a) = false) →
      (ea.map aspect_proj).Nodup →
      ea.foldl (fun st a => A.foldl (aspect_step a) st) st
        = ((ea.map aspect_match_key).reverse ++ st.1,
           st.2 ++ ea.map (fun a => Factor.aspect_match a.planet a.aspect_type a.to_house)) := by
  intro ea
  induction ea with
  | nil =>
    intro st _ _ _
    simp
  | cons a rest ih =>
    intro st hfil hkey hnd
    rw [List.foldl_cons,
      fold_aspect_step_single a A st (hfil a (List.mem_cons_self _ _))
        (hkey a (List.mem_cons_self _ _))]
    have hkey' : ∀ a' ∈ rest,
        key_mem (aspect_match_key a :: st.1) (aspect_match_key a') = false := by
      intro a' ha'
      have hne : aspect_proj a' ≠ aspect_proj a := by
        intro he
        exact (List.nodup_cons.1 hnd).1 (he ▸ List.mem_map_of_mem aspect_proj ha')
      have h2 := hkey a' (List.mem_cons_of_mem _ ha')
      unfold key_mem at h2 ⊢
      rw [List.any_cons, aspect_key_beq_false hne, h2]
      rfl
    rw [ih _ (fun a' ha' => hfil a' (List.mem_cons_of_mem _ ha')) hkey'
      (List.nodup_cons.1 (by simpa using hnd)).2]
    simp [List.append_assoc]

theorem filter_eq_singleton {α : Type} (p : α → Bool) :
    ∀ (l : List α), l.Nodup → ∀ a ∈ l, (∀ b ∈ l, (p b = true ↔ b = a)) →
      l.filter p = [a] := by
  intro l
  induction l with
  | nil =>
    intro _ a ha
    cases ha
  | cons x rest ih =>
    intro hnd a ha hp
    rcases List.mem_cons.1 ha with rfl | ha'
    · rw [List.filter_cons_of_pos ((hp a (List.mem_cons_self _ _)).2 rfl)]
      have hrest : rest.filter p = [] := by
        rw [List.filter_eq_nil_iff]
        intro b hb hpb
        have hba := (hp b (List.mem_cons_of_mem _ hb)).1 hpb
        subst hba
        exact (List.nodup_cons.1 hnd).1 hb
      rw [hrest]
    · have hx : p x = false := by
        cases hpx : p x with
        | false => rfl
        | true =>
          have hxa := (hp x (List.mem_cons_self _ _)).1 hpx
          subst hxa
          exact absurd ha' (List.nodup_cons.1 hnd).1
      rw [List.filter_cons_of_neg (by simp [hx])]
      exact ih (List.nodup_cons.1 hnd).2 a ha'
        (fun b hb => hp b (List.mem_cons_of_mem _ hb))

theorem filter_self_of_proj_nodup (A : List Aspect) (hnd : (A.map aspect_proj).Nodup) :
    ∀ a ∈ A, A.filter (aspect_match_cond a) = [a] := by
  intro a ha
  have hinj := List.inj_on_of_nodup_map hnd
  refine filter_eq_singleton _ A (hnd.of_map _) a ha ?_
  intro b hb
  constructor
  · intro hc
    exact hinj hb ha (aspect_match_cond_proj hc).symm
  · rintro rfl
    exact aspect_match_cond_refl _

theorem aspect_factors_self_eq (c : ChartDict) (A : List Aspect)
    (hcalc : calculate_all_aspects c.planetary_positions = .ok A)
    (hnd : (A.map aspect_proj).Nodup) :
    aspect_factors c c
      = A.map (fun a => Factor.aspect_match a.planet a.aspect_type a.to_house) := by
  unfold aspect_factors
  simp only [hcalc]
  rw [fold_aspect_outer A A ([], []) (filter_self_of_proj_nodup A hnd)
    (fun a _ => rfl) hnd]
  simp

theorem sum_map_const {α : Type} (l : List α) (c : ℚ) :
    (l.map (fun _ => c)).sum = l.length * c := by
  induction l with
  | nil => simp
  | cons a t ih =>
    simp [ih]
    ring

theorem filterMap_eq_map_of_some {α β : Type} (f : α → Option β) (g : α → β) :
    ∀ (l : List α), (∀ a ∈ l, f a = some (g a)) → l.filterMap f = l.map g := by
  intro l
  induction l with
  | nil => intro _; rfl
  | cons a rest ih =>
    intro h
    rw [List.filterMap_cons, h a (List.mem_cons_self _ _),
      ih (fun a' ha' => h a' (List.mem_cons_of_mem _ ha'))]
    rfl

/-! ## Claim C1: assembler self-correlation -/

theorem planet_names_sub : ∀ n ∈ planet_names, n ∈ PLANETS_order := by
  intro n hn
  fin_cases hn <;> decide

theorem calc_aspects_flatten (pos : String → PlanetData) (house : String → ℤ) :
    ∀ (l : List String),
      (∀ n ∈ l, (pos n).house = some (house n) ∧ 1 ≤ house n ∧ house n ≤ 12) →
      calculate_all_aspects (l.map (fun n => (n, pos n)))
        = .ok ((l.map (planet_block pos house)).flatten) := by
  intro l
  induction l with
  | nil => intro _; rfl
  | cons n rest ih =>
    intro h
    obtain ⟨hh, h1, h2⟩ := h n (List.mem_cons_self _ _)
    rw [List.map_cons, calculate_all_aspects, planet_aspects_eq n (pos n) (house n) hh h1 h2,
      eok_bind, ih (fun m hm => h m (List.mem_cons_of_mem _ hm)), eok_bind,
      List.map_cons, List.flatten_cons]
    rfl

theorem assembler_proj_eq (pos : String → PlanetData) (house : String → ℤ) :
    ((PLANETS_order.map (planet_block pos house)).flatten).map aspect_proj
      = [("Sun", "drishti_7th"), ("Moon", "drishti_7th"), ("Mercury", "drishti_7th"),
         ("Venus", "drishti_7th"),
         ("Mars", "drishti_4th"), ("Mars", "drishti_7th"), ("Mars", "drishti_8th"),
         ("Jupiter", "drishti_5th"), ("Jupiter", "drishti_7th"), ("Jupiter", "drishti_9th"),
         ("Saturn", "drishti_3rd"), ("Saturn", "drishti_7th"), ("Saturn", "drishti_10th"),
         ("Rahu", "drishti_3rd"), ("Rahu", "drishti_7th"), ("Rahu", "drishti_11th"),
         ("Ketu", "drishti_3rd"), ("Ketu", "drishti_7th"), ("Ketu", "drishti_11th")] := rfl

theorem assembler_proj_nodup (pos : String → PlanetData) (house : String → ℤ) :
    (((PLANETS_order.map (planet_block pos house)).flatten).map aspect_proj).Nodup := by
  rw [assembler_proj_eq]
  decide

theorem assembler_lookup (asc_rasi : String) (asc_degree : ℚ) (cusps : List ℚ)
    (pos : String → PlanetData) :
    ∀ n ∈ planet_names,
      (assembler_chart asc_rasi asc_degree cusps pos).planetary_positions.lookup n
        = some (pos n) := by
  intro n hn
  fin_cases hn <;> rfl

theorem lagna_factors_assembler (asc_rasi : String) (asc_degree : ℚ) (cusps : List ℚ)
    (pos : String → PlanetData) :
    lagna_factors (assembler_chart asc_rasi asc_degree cusps pos)
      (assembler_chart asc_rasi asc_degree cusps pos) = [] := by
  simp [lagna_factors, assembler_chart, str_truthy]

theorem retro_names_map (pos : String → PlanetData) :
    ∀ (l : List String),
      ((l.map (fun n => (n, pos n))).filter (fun pd => pd.2.is_retrograde)).map Prod.fst
        = l.filter (fun n => (pos n).is_retrograde) := by
  intro l
  induction l with
  | nil => rfl
  | cons n rest ih =>
    simp only [List.map_cons, List.filter_cons]
    cases hr : (pos n).is_retrograde with
    | true => simp [hr, ih]
    | false => simp [hr, ih]

theorem py_set_inter_self (l : List String) : py_set_inter l l = l.dedup := by
  unfold py_set_inter
  have hfil : l.filter (fun x => l.contains x) = l := by
    apply List.filter_eq_self.2
    intro a ha
    simpa using ha
  rw [hfil]

theorem get_retro_assembler (asc_rasi : String) (asc_degree : ℚ) (cusps : List ℚ)
    (pos : String → PlanetData) :
    get_retrograde_planets (assembler_chart asc_rasi asc_degree cusps pos)
      = PLANETS_order.filter (fun n => (pos n).is_retrograde) :=
  retro_names_map pos PLANETS_order

theorem retro_factors_assembler (asc_rasi : String) (asc_degree : ℚ) (cusps : List ℚ)
    (pos : String → PlanetData) :
    retro_factors (assembler_chart asc_rasi asc_degree cusps pos)
        (assembler_chart asc_rasi asc_degree cusps pos)
      = (PLANETS_order.filter (fun n => (pos n).is_retrograde)).map Factor.retrograde_match := by
  unfold retro_factors
  rw [get_retro_assembler, py_set_inter_self,
    List.dedup_eq_self.2 (List.Nodup.filter _ (by decide))]

theorem house_factor_for_self (e : ChartDict) (n : String) (d : PlanetData) (h : ℤ)
    (hlk : e.planetary_positions.lookup n = some d)
    (hh : d.house = some h) (h1 : 1 ≤ h) (h2 : h ≤ 12) :
    house_factor_for e e n = some (Factor.planetary_house_match n h) := by
  have hgh : get_planet_house d = some h := by
    unfold get_planet_house
    rw [hh]
    exact if_pos ⟨h1, h2⟩
  have hne : (h != 0) = true := bne_iff_ne.2 (by omega)
  unfold house_factor_for
  simp only [hlk, hgh, hne, beq_self_eq_true]
  simp

theorem house_factors_assembler (asc_rasi : String) (asc_degree : ℚ) (cusps : List ℚ)
    (pos : String → PlanetData) (house : String → ℤ)
    (hh : ∀ n ∈ PLANETS_order,
      (pos n).house = some (house n) ∧ 1 ≤ house n ∧ house n ≤ 12) :
    house_factors (assembler_chart asc_rasi asc_degree cusps pos)
        (assembler_chart asc_rasi asc_degree cusps pos)
      = planet_names.map (fun n => Factor.planetary_house_match n (house n)) := by
  apply filterMap_eq_map_of_some
  intro n hn
  obtain ⟨hhn, h1, h2⟩ := hh n (planet_names_sub n hn)
  exact house_factor_for_self _ n (pos n) (house n)
    (assembler_lookup asc_rasi asc_degree cusps pos n hn) hhn h1 h2

theorem rasi_fold_no_add (e s : ChartDict) :
    ∀ (l : List String) (acc : List Factor),
      (∀ n ∈ l, acc.any (is_house_match_for n) = true) →
      rasi_fold e s l acc = acc := by
  intro l
  induction l with
  | nil => intro acc _; rfl
  | cons n rest ih =>
    intro acc h
    have hnone : rasi_factor_for e s acc n = none := by
      cases hrf : rasi_factor_for e s acc n with
      | none => rfl
      | some f =>
        have hiff := (rasi_factor_for_some_iff e s acc n).1 ⟨f, hrf⟩
        simp [h n (List.mem_cons_self _ _)] at hiff
    rw [rasi_fold, hnone]
    simp only [Option.toList_none, List.append_nil]
    exact ih acc (fun m hm => h m (List.mem_cons_of_mem _ hm))

theorem correlate_strength_def (e s : ChartDict) (id : ℤ) :
    (correlate_event_with_snapshot e s id).strength
      = categorize_correlation_strength
          ((correlate_event_with_snapshot e s id).correlation_score) := rfl

/-- Claim C1 (corrected): correlating a Chart-Assembler-format chart with
itself yields NO lagna-match factor — the snapshot side reads the
`lagna_rasi` key, which the assembler's output does not carry — followed by
one 0.1 retrograde factor per planet retrograde in the chart, one 0.05
house-match factor for each of the nine planets, and one 0.15 aspect-match
factor for each of the chart's 19 aspects; the total score is capped at
1.0 and the strength label is "Very High". -/
theorem C1_theorem (asc_rasi : String) (asc_degree : ℚ) (cusps : List ℚ)
    (pos : String → PlanetData) (house : String → ℤ) (snapshot_id : ℤ)
    (hh : ∀ n ∈ PLANETS_order,
      (pos n).house = some (house n) ∧ 1 ≤ house n ∧ house n ≤ 12) :
    ∃ A, calculate_all_aspects
        (assembler_chart asc_rasi asc_degree cusps pos).planetary_positions = .ok A
      ∧ A.length = 19
      ∧ (assembler_self_correlation asc_rasi asc_degree cusps pos snapshot_id).correlations
          = (PLANETS_order.filter (fun n => (pos n).is_retrograde)).map Factor.retrograde_match
            ++ planet_names.map (fun n => Factor.planetary_house_match n (house n))
            ++ A.map (fun a => Factor.aspect_match a.planet a.aspect_type a.to_house)
      ∧ (assembler_self_correlation asc_rasi asc_degree cusps pos snapshot_id).correlation_score
          = 1
      ∧ (assembler_self_correlation asc_rasi asc_degree cusps pos snapshot_id).strength
          = "Very High" := by
  have hcalc : calculate_all_aspects
      (assembler_chart asc_rasi asc_degree cusps pos).planetary_positions
      = .ok ((PLANETS_order.map (planet_block pos house)).flatten) :=
    calc_aspects_flatten pos house PLANETS_order hh
  have hlag := lagna_factors_assembler asc_rasi asc_degree cusps pos
  have hret := retro_factors_assembler asc_rasi asc_degree cusps pos
  have hhf := house_factors_assembler asc_rasi asc_degree cusps pos house hh
  have hasp := aspect_factors_self_eq (assembler_chart asc_rasi asc_degree cusps pos)
    ((PLANETS_order.map (planet_block pos house)).flatten) hcalc
    (assembler_proj_nodup pos house)
  have hanyh : ∀ n ∈ planet_names,
      ((PLANETS_order.filter (fun n => (pos n).is_retrograde)).map Factor.retrograde_match
        ++ planet_names.map (fun n => Factor.planetary_house_match n (house n))
        ++ ((PLANETS_order.map (planet_block pos house)).flatten).map
            (fun a => Factor.aspect_match a.planet a.aspect_type a.to_house)).any
          (is_house_match_for n) = true := by
    intro n hn
    rw [List.any_append, List.any_append]
    have hH : (planet_names.map (fun m => Factor.planetary_house_match m (house m))).any
        (is_house_match_for n) = true :=
      List.any_eq_true.2 ⟨Factor.planetary_house_match n (house n),
        List.mem_map_of_mem _ hn, by simp [is_house_match_for]⟩
    rw [hH]
    simp
  have hmain : (assembler_self_correlation asc_rasi asc_degree cusps pos
        snapshot_id).correlations
      = (PLANETS_order.filter (fun n => (pos n).is_retrograde)).map Factor.retrograde_match
        ++ planet_names.map (fun n => Factor.planetary_house_match n (house n))
        ++ ((PLANETS_order.map (planet_block pos house)).flatten).map
            (fun a => Factor.aspect_match a.planet a.aspect_type a.to_house) := by
    show rasi_fold (assembler_chart asc_rasi asc_degree cusps pos)
        (assembler_chart asc_rasi asc_degree cusps pos) planet_names
        (lagna_factors (assembler_chart asc_rasi asc_degree cusps pos)
            (assembler_chart asc_rasi asc_degree cusps pos)
          ++ retro_factors (assembler_chart asc_rasi asc_degree cusps pos)
              (assembler_chart asc_rasi asc_degree cusps pos)
          ++ house_factors (assembler_chart asc_rasi asc_degree cusps pos)
              (assembler_chart asc_rasi asc_degree cusps pos)
          ++ aspect_factors (assembler_chart asc_rasi asc_degree cusps pos)
              (assembler_chart asc_rasi asc_degree cusps pos)) = _
    rw [hlag, hret, hhf, hasp, List.nil_append]
    exact rasi_fold_no_add _ _ planet_names _ hanyh
  have hscore : (assembler_self_correlation asc_rasi asc_degree cusps pos
      snapshot_id).correlation_score = 1 := by
    show calculate_correlation_score
      (assembler_self_correlation asc_rasi asc_degree cusps pos snapshot_id).correlations = 1
    rw [hmain]
    unfold calculate_correlation_score
    rw [List.map_append, List.map_append, List.sum_append, List.sum_append,
      List.map_map, List.map_map, List.map_map]
    have h1 : Factor.score ∘ Factor.retrograde_match = fun _ => (1/10 : ℚ) := rfl
    have h2 : (Factor.score ∘ fun n => Factor.planetary_house_match n (house n))
        = fun _ => (1/20 : ℚ) := rfl
    have h3 : (Factor.score ∘ fun a : Aspect => Factor.aspect_match a.planet a.aspect_type
          a.to_house)
        = fun _ => (3/20 : ℚ) := rfl
    rw [h1, h2, h3, sum_map_const, sum_map_const, sum_map_const,
      show planet_names.length = 9 from rfl,
      show ((PLANETS_order.map (planet_block pos house)).flatten).length = 19 from rfl]
    refine min_eq_right ?_
    have h10 : (0:ℚ) ≤
        ((PLANETS_order.filter (fun n => (pos n).is_retrograde)).length : ℚ) * (1/10) := by
      positivity
    push_cast
    linarith
  refine ⟨(PLANETS_order.map (planet_block pos house)).flatten, hcalc, rfl, hmain, hscore, ?_⟩
  have hstr : (assembler_self_correlation asc_rasi asc_degree cusps pos snapshot_id).strength
      = categorize_correlation_strength
          ((assembler_self_correlation asc_rasi asc_degree cusps pos
            snapshot_id).correlation_score) :=
    correlate_strength_def _ _ _
  rw [hstr, hscore]
  unfold categorize_correlation_strength
  rw [if_pos (by norm_num : (1:ℚ) ≥ 7/10)]

/-- Claim C1 counterexample: the concrete sample assembler chart carries a
truthy `ascendant_rasi`, yet the self-correlation emits no lagna-match
factor at all — the snapshot side reads the absent `lagna_rasi` key. -/
theorem C1_counterexample :
    (assembler_chart "Aries" 10 cusps_0_30 sample_pos).ascendant_rasi = some "Aries"
      ∧ (assembler_self_correlation "Aries" 10 cusps_0_30 sample_pos 1).correlations.countP
          is_lagna_factor = 0 :=
  ⟨rfl, rfl⟩

/-- Claim C1 witness: the corrected description evaluated on the concrete
sample assembler chart (every planet in house 1, the nodes retrograde). -/
theorem C1_witness :
    ∃ A, calculate_all_aspects
        (assembler_chart "Aries" 10 cusps_0_30 sample_pos).planetary_positions = .ok A
      ∧ A.length = 19
      ∧ (assembler_self_correlation "Aries" 10 cusps_0_30 sample_pos 1).correlations
          = (PLANETS_order.filter (fun n => (sample_pos n).is_retrograde)).map
              Factor.retrograde_match
            ++ planet_names.map (fun n => Factor.planetary_house_match n (sample_house n))
            ++ A.map (fun a => Factor.aspect_match a.planet a.aspect_type a.to_house)
      ∧ (assembler_self_correlation "Aries" 10 cusps_0_30 sample_pos 1).correlation_score = 1
      ∧ (assembler_self_correlation "Aries" 10 cusps_0_30 sample_pos 1).strength
          = "Very High" :=
  C1_theorem "Aries" 10 cusps_0_30 sample_pos sample_house 1
    (fun n _ => ⟨rfl, by norm_num [sample_house], by norm_num [sample_house]⟩)


end Cosmic
